import Mathlib

/-!
# GPU nonbonded data management (nbnxm_gpu_data_mgmt.cpp)

A shallow embedding of the kernel-variant selectors, the device pair list
upload, the parameter refresh, the timings and the coordinate-upload
scheduling of src/gromacs/nbnxm/nbnxm_gpu_data_mgmt.cpp, followed by the
properties that are proved about them.

Conventions of the embedding.

* A function that can stop with gmx_incons, a thrown exception or a failed
  assertion returns Except GmxError; the error value says which one.
* Compile-time switches (GMX_GPU_CUDA, GMX_GPU_OPENCL, NDEBUG) are the fields
  of BuildConfig; getenv lookups are the fields of Environment.
* Values of type real (cutoffs, coefficients) are exact rationals.
* Calls into the device backend (asynchronous copies, timing regions, event
  operations, flushes) are recorded, in issue order, in the calls field of the
  device session; a buffer reallocation shows in the size and capacity fields
  of the pair list.
* A pointer to the session is the session itself, so the null-pointer checks
  GMX_ASSERT(nb, ...) have no counterpart.
-/

namespace Nbnxm

/-! ## Errors, build configuration, environment -/

/-- Ways in which a function of this file stops without a result. -/
inductive GmxError
  /-- Fatal inconsistency raised by gmx_incons; terminates the process. -/
  | gmx_incons
  /-- Exception gmx::InconsistentInputError raised through GMX_THROW. -/
  | InconsistentInputError
  /-- Exception gmx::InternalError raised through GMX_THROW. -/
  | InternalError
  /-- Failure of assert, GMX_ASSERT or GMX_RELEASE_ASSERT; aborts the process. -/
  | AssertionFailure
  /-- Dereference of a null pointer: undefined behaviour, taken to stop the process. -/
  | NullPointerDereference
  deriving DecidableEq, Repr

deriving instance DecidableEq for Except

/-- Compile-time configuration read by the preprocessor conditionals. -/
structure BuildConfig where
  /-- Value of GMX_GPU_CUDA. -/
  GMX_GPU_CUDA : Bool
  /-- Value of GMX_GPU_OPENCL. -/
  GMX_GPU_OPENCL : Bool
  /-- True when NDEBUG is defined: assert and GMX_ASSERT expand to nothing. -/
  NDEBUG : Bool
  deriving DecidableEq, Repr

/-- Outcome of the three getenv lookups: true when the variable is set. -/
structure Environment where
  GMX_GPU_NB_ANA_EWALD : Bool
  GMX_GPU_NB_TAB_EWALD : Bool
  GMX_GPU_NB_EWALD_TWINCUT : Bool
  deriving DecidableEq, Repr

/-- The assert macro of cassert (GMX_ASSERT behaves alike): checked unless NDEBUG
is defined. -/
def debugAssert (cfg : BuildConfig) (condition : Bool) : Except GmxError Unit :=
  if cfg.NDEBUG then .ok ()
  else if condition then .ok () else .error .AssertionFailure

/-! ## Enumerations

The enumerations are declared in headers that are not part of this source
file.  Each one lists the enumerators the source file names and gathers every
remaining value of the underlying integer type under the constructor other. -/

/-- Electrostatics kernel variants. -/
inductive ElecType
  | Cut
  | RF
  | EwaldTab
  | EwaldTabTwin
  | EwaldAna
  | EwaldAnaTwin
  deriving DecidableEq, Repr

/-- Van der Waals kernel variants. -/
inductive VdwType
  | Cut
  | CutCombGeom
  | CutCombLB
  | FSwitch
  | PSwitch
  | EwaldGeom
  | EwaldLB
  deriving DecidableEq, Repr

/-- Electrostatics model of the simulation. -/
inductive CoulombInteractionType
  | Cut
  | Ewald
  | other (code : Nat)
  deriving DecidableEq, Repr

/-- Van der Waals model of the simulation. -/
inductive VanDerWaalsType
  | Cut
  | Pme
  | other (code : Nat)
  deriving DecidableEq, Repr

/-- Interaction modifiers. -/
inductive InteractionModifiers
  | None
  | PotShift
  | ForceSwitch
  | PotSwitch
  | other (code : Nat)
  deriving DecidableEq, Repr

/-- Combination rule of the short-range Lennard-Jones parameters. -/
inductive LJCombinationRule
  | None
  | Geometric
  | LorentzBerthelot
  | other (code : Nat)
  deriving DecidableEq, Repr

/-- Combination rule of the long-range (LJ-PME) part. -/
inductive LongRangeVdW
  | Geom
  | other (code : Nat)
  deriving DecidableEq, Repr

/-! ## Interaction constants and device description -/

/-- Potential-shift constants (shift_consts_t). -/
structure shift_consts_t where
  c2 : ℚ
  c3 : ℚ
  cpot : ℚ
  deriving DecidableEq

/-- Potential-switch constants (switch_consts_t). -/
structure switch_consts_t where
  c3 : ℚ
  c4 : ℚ
  c5 : ℚ
  deriving DecidableEq

/-- Host-side Ewald correction tables: the scale and the tabulated force. -/
structure EwaldCorrectionTables where
  scale : ℚ
  tableF : List ℚ
  deriving DecidableEq

/-- The fields of interaction_const_t that this file reads. -/
structure interaction_const_t where
  eeltype : CoulombInteractionType
  vdwtype : VanDerWaalsType
  vdw_modifier : InteractionModifiers
  ljpme_comb_rule : LongRangeVdW
  rcoulomb : ℚ
  rvdw : ℚ
  rvdw_switch : ℚ
  ewaldcoeff_q : ℚ
  ewaldcoeff_lj : ℚ
  sh_ewald : ℚ
  sh_lj_ewald : ℚ
  epsfac : ℚ
  reactionFieldCoefficient : ℚ
  reactionFieldShift : ℚ
  dispersion_shift : shift_consts_t
  repulsion_shift : shift_consts_t
  vdw_switch : switch_consts_t
  /-- Owning pointer to the tables; none is the null pointer. -/
  coulombEwaldTables : Option EwaldCorrectionTables
  deriving DecidableEq

/-- Compute capability of a CUDA device (deviceInfo.prop). -/
structure DeviceProp where
  major : Int
  minor : Int
  deriving DecidableEq, Repr

/-- Device description; prop is only read in a CUDA build. -/
structure DeviceInformation where
  prop : DeviceProp
  deriving DecidableEq, Repr

/-! ## Kernel-variant selectors -/

/-- The constant c_useTabulatedEwaldDefault of nbnxn_gpu_pick_ewald_kernel_type:
with CUDA, compute capability 7.0 or 8.0; false in every other build. -/
def c_useTabulatedEwaldDefault (cfg : BuildConfig) (deviceInfo : DeviceInformation) : Bool :=
  if cfg.GMX_GPU_CUDA then
    (deviceInfo.prop.major == 7 && deviceInfo.prop.minor == 0)
      || (deviceInfo.prop.major == 8 && deviceInfo.prop.minor == 0)
  else
    false

/-- Selector of the Ewald kernel variant (nbnxn_gpu_pick_ewald_kernel_type).
The writes to the debug log are not part of the embedding. -/
def nbnxn_gpu_pick_ewald_kernel_type (cfg : BuildConfig) (env : Environment)
    (ic : interaction_const_t) (deviceInfo : DeviceInformation) : Except GmxError ElecType :=
  let bTwinCut : Bool := ic.rcoulomb != ic.rvdw
  let forceAnalyticalEwald := env.GMX_GPU_NB_ANA_EWALD
  let forceTabulatedEwald := env.GMX_GPU_NB_TAB_EWALD
  let forceTwinCutoffEwald := env.GMX_GPU_NB_EWALD_TWINCUT
  if forceAnalyticalEwald && forceTabulatedEwald then
    .error .gmx_incons
  else
    let bUseAnalyticalEwald : Bool :=
      if forceAnalyticalEwald then true
      else if forceTabulatedEwald then false
      else !(c_useTabulatedEwaldDefault cfg deviceInfo)
    if !bTwinCut && !forceTwinCutoffEwald then
      .ok (if bUseAnalyticalEwald then .EwaldAna else .EwaldTab)
    else
      .ok (if bUseAnalyticalEwald then .EwaldAnaTwin else .EwaldTabTwin)

/-- Selector of the electrostatics kernel variant
(nbnxmGpuPickElectrostaticsKernelType).  The macros EEL_RF and EEL_PME are
defined in a header that is not part of this source file and are taken as
parameters. -/
def nbnxmGpuPickElectrostaticsKernelType (EEL_RF EEL_PME : CoulombInteractionType → Bool)
    (cfg : BuildConfig) (env : Environment)
    (ic : interaction_const_t) (deviceInfo : DeviceInformation) : Except GmxError ElecType :=
  if ic.eeltype = .Cut then
    .ok .Cut
  else if EEL_RF ic.eeltype then
    .ok .RF
  else if EEL_PME ic.eeltype || ic.eeltype == .Ewald then
    nbnxn_gpu_pick_ewald_kernel_type cfg env ic deviceInfo
  else
    .error .InconsistentInputError

/-- Selector of the van der Waals kernel variant (nbnxmGpuPickVdwKernelType). -/
def nbnxmGpuPickVdwKernelType (cfg : BuildConfig) (ic : interaction_const_t)
    (ljCombinationRule : LJCombinationRule) : Except GmxError VdwType :=
  if ic.vdwtype = .Cut then
    match ic.vdw_modifier with
    | .None | .PotShift =>
      match ljCombinationRule with
      | .None => .ok .Cut
      | .Geometric => .ok .CutCombGeom
      | .LorentzBerthelot => .ok .CutCombLB
      | .other _ => .error .InconsistentInputError
    | .ForceSwitch => .ok .FSwitch
    | .PotSwitch => .ok .PSwitch
    | .other _ => .error .InconsistentInputError
  else if ic.vdwtype = .Pme then
    if ic.ljpme_comb_rule = .Geom then do
      debugAssert cfg (ljCombinationRule == .Geometric)
      pure .EwaldGeom
    else do
      debugAssert cfg (ljCombinationRule == .LorentzBerthelot)
      pure .EwaldLB
  else
    .error .InconsistentInputError

/-! ## Localities -/

/-- Interaction locality: which of the two pair lists and streams is meant. -/
inductive InteractionLocality
  | Local
  | NonLocal
  deriving DecidableEq, Repr

/-- Modelled from the spec: the atom locality passed to the coordinate upload,
declared in a header that is not part of this source file.  The spec knows the two
localities local and non-local. -/
inductive AtomLocality
  | Local
  | NonLocal
  deriving DecidableEq, Repr

/-- Modelled from the spec: the helper gpuAtomToInteractionLocality, defined in a
header that is not part of this source file; it maps each atom locality to the
interaction locality of the same name. -/
def gpuAtomToInteractionLocality : AtomLocality → InteractionLocality
  | .Local => .Local
  | .NonLocal => .NonLocal

/-- An array indexed by interaction locality. -/
structure PerLocality (α : Type) where
  atLocal : α
  atNonLocal : α
  deriving DecidableEq, Repr

/-- Read the entry of a locality. -/
def PerLocality.get {α : Type} (a : PerLocality α) : InteractionLocality → α
  | .Local => a.atLocal
  | .NonLocal => a.atNonLocal

/-- Overwrite the entry of a locality. -/
def PerLocality.set {α : Type} (a : PerLocality α) (iloc : InteractionLocality) (v : α) :
    PerLocality α :=
  match iloc with
  | .Local => { a with atLocal := v }
  | .NonLocal => { a with atNonLocal := v }

/-! ## Device pair list -/

/-- A device buffer pointer: the null pointer or an allocation of some capacity. -/
inductive DeviceBuffer
  | nullptr
  | allocated (capacity : Nat)
  deriving DecidableEq, Repr

/-- The device pair list gpu_plist. -/
structure gpu_plist where
  na_c : Int
  nsci : Int
  sci_nalloc : Int
  ncj4 : Int
  cj4_nalloc : Int
  nimask : Int
  imask_nalloc : Int
  nexcl : Int
  excl_nalloc : Int
  sci : DeviceBuffer
  cj4 : DeviceBuffer
  imask : DeviceBuffer
  excl : DeviceBuffer
  haveFreshList : Bool
  rollingPruningNumParts : Int
  rollingPruningPart : Int
  deriving DecidableEq, Repr

/-- The host pair list NbnxnPairlistGpu, as far as the upload reads it.  Entries of
the three arrays are kept as plain numbers. -/
structure NbnxnPairlistGpu where
  na_ci : Int
  sci : List Nat
  cj4 : List Nat
  excl : List Nat
  deriving DecidableEq, Repr

/-- Reset of a device pair list (init_plist). -/
def init_plist (pl : gpu_plist) : gpu_plist :=
  { pl with
    sci := .nullptr
    cj4 := .nullptr
    imask := .nullptr
    excl := .nullptr
    na_c := -1
    nsci := -1
    sci_nalloc := -1
    ncj4 := -1
    cj4_nalloc := -1
    nimask := -1
    imask_nalloc := -1
    nexcl := -1
    excl_nalloc := -1
    haveFreshList := false
    rollingPruningNumParts := 0
    rollingPruningPart := 0 }

/-! ## Parameter block, timings, atom data -/

/-- The kernel parameter block NBParamGpu. -/
structure NBParamGpu where
  elecType : ElecType
  vdwType : VdwType
  ewald_beta : ℚ
  sh_ewald : ℚ
  epsfac : ℚ
  two_k_rf : ℚ
  c_rf : ℚ
  rvdw_sq : ℚ
  rcoulomb_sq : ℚ
  rlistOuter_sq : ℚ
  rlistInner_sq : ℚ
  useDynamicPruning : Bool
  sh_lj_ewald : ℚ
  ewaldcoeff_lj : ℚ
  rvdw_switch : ℚ
  dispersion_shift : shift_consts_t
  repulsion_shift : shift_consts_t
  vdw_switch : switch_consts_t
  coulomb_tab_scale : ℚ
  /-- Device table of the Ewald correction force; none is the null pointer. -/
  coulomb_tab : Option (List ℚ)
  deriving DecidableEq

/-- One kernel timing entry (duration and call count). -/
structure nbnxn_gpu_timer_count where
  t : ℚ
  c : Int
  deriving DecidableEq

/-- The timing accumulator gmx_wallclock_gpu_nbnxn_t; ktime is indexed by two
binary axes. -/
structure gmx_wallclock_gpu_nbnxn_t where
  nb_h2d_t : ℚ
  nb_d2h_t : ℚ
  nb_c : Int
  pl_h2d_t : ℚ
  pl_h2d_c : Int
  ktime : Bool → Bool → nbnxn_gpu_timer_count
  pruneTime : nbnxn_gpu_timer_count
  dynamicPruneTime : nbnxn_gpu_timer_count

/-- Device atom data NBAtomData, as far as the atom ranges need it. -/
structure NBAtomData where
  numAtoms : Int
  numAtomsLocal : Int
  deriving DecidableEq, Repr

/-- Layout of the host coordinate array. -/
inductive nbatFormat
  | nbatXYZQ
  | other (code : Nat)
  deriving DecidableEq, Repr

/-- Host atom data nbnxn_atomdata_t, as far as the coordinate upload reads it. -/
structure nbnxn_atomdata_t where
  XFormat : nbatFormat
  x : List ℚ
  deriving DecidableEq

/-- A half-open index range (gmx::Range of int). -/
structure Range where
  first : Int
  last : Int
  deriving DecidableEq, Repr

/-- The member begin() of a range. -/
def Range.begin (r : Range) : Int := r.first

/-- The member size() of a range. -/
def Range.size (r : Range) : Int := r.last - r.first

/-- The bonded-work collaborator gmx::GpuBonded, reduced to what it reports. -/
structure GpuBonded where
  haveInteractions : Bool
  deriving DecidableEq, Repr

/-! ## Device session and backend calls -/

/-- Names of the device buffers that receive data. -/
inductive BufferId
  | sci (iloc : InteractionLocality)
  | cj4 (iloc : InteractionLocality)
  | excl (iloc : InteractionLocality)
  | xq
  deriving DecidableEq, Repr

/-- Names of the timing regions. -/
inductive TimerId
  | pl_h2d (iloc : InteractionLocality)
  | nb_h2d (atomLocality : AtomLocality)
  deriving DecidableEq, Repr

/-- A call into the device backend.  A stream is named by the locality whose
entry of deviceStreams it is. -/
inductive DeviceCall
  /-- Asynchronous copyToDeviceBuffer of numValues values at startingOffset;
  timed is true when a timing event is passed along. -/
  | copyToDeviceBuffer (buffer : BufferId) (startingOffset : Int) (numValues : Int)
      (stream : InteractionLocality) (timed : Bool)
  | openTimingRegion (timer : TimerId) (stream : InteractionLocality)
  | closeTimingRegion (timer : TimerId) (stream : InteractionLocality)
  /-- Call misc_ops_and_local_H2D_done.markEvent(stream). -/
  | markEvent (stream : InteractionLocality)
  /-- Call misc_ops_and_local_H2D_done.enqueueWaitEvent(stream). -/
  | enqueueWaitEvent (stream : InteractionLocality)
  /-- Call misc_ops_and_local_H2D_done.reset(). -/
  | resetEvent
  /-- Call clFlush on the stream (OpenCL only). -/
  | clFlush (stream : InteractionLocality)
  deriving DecidableEq, Repr

/-- What the embedding takes from the device backend and from headers that are not
part of this source file. -/
structure Backend where
  /-- The capacity over_alloc_large picks for a requested size. -/
  over_alloc_large : Nat → Nat
  /-- The constant c_nbnxnGpuClusterpairSplit. -/
  c_nbnxnGpuClusterpairSplit : Nat
  /-- True when clFlush on the stream returns CL_SUCCESS. -/
  clFlushSucceeds : InteractionLocality → Bool
  /-- The helper getGpuAtomRange. -/
  getGpuAtomRange : NBAtomData → AtomLocality → Range

/-- The device session NbnxmGpu. -/
structure NbnxmGpu where
  bDoTime : Bool
  bUseTwoStreams : Bool
  atdat : NBAtomData
  nbparam : NBParamGpu
  plist : PerLocality gpu_plist
  haveWork : PerLocality Bool
  /-- The flag timers->interaction[iloc].didPairlistH2D. -/
  didPairlistH2D : PerLocality Bool
  timings : gmx_wallclock_gpu_nbnxn_t
  /-- Backend calls issued so far, oldest first. -/
  calls : List DeviceCall
  /-- The device description deviceContext_->deviceInfo(). -/
  deviceInfo : DeviceInformation

/-- Modelled from the spec: reallocateDeviceBuffer, a backend primitive that is not
part of this source file.  It keeps a logical size and a separately tracked
capacity; the buffer is reallocated, with the capacity over_alloc_large picks,
only when the requested size exceeds the capacity.  Returns the buffer, the
logical size and the capacity. -/
def reallocateDeviceBuffer (be : Backend) (buffer : DeviceBuffer) (numValues : Nat)
    (currentMaxNumValues : Int) : DeviceBuffer × Int × Int :=
  if (numValues : Int) > currentMaxNumValues then
    (.allocated (be.over_alloc_large numValues), numValues, be.over_alloc_large numValues)
  else
    (buffer, numValues, currentMaxNumValues)

/-- The check of the atoms-per-cluster value at the head of gpu_init_pairlist. -/
def gpu_init_pairlist_na_c (d_plist : gpu_plist) (h_plist : NbnxnPairlistGpu) :
    Except GmxError gpu_plist :=
  if d_plist.na_c < 0 then
    .ok { d_plist with na_c := h_plist.na_ci }
  else if d_plist.na_c ≠ h_plist.na_ci then
    .error .gmx_incons
  else
    .ok d_plist

/-- Upload of a host pair list (gpu_init_pairlist). -/
def gpu_init_pairlist (be : Backend) (nb : NbnxmGpu) (h_plist : NbnxnPairlistGpu)
    (iloc : InteractionLocality) : Except GmxError NbnxmGpu := do
  let bDoTime : Bool := nb.bDoTime && !h_plist.sci.isEmpty
  let d_plist ← gpu_init_pairlist_na_c (nb.plist.get iloc) h_plist
  let didPairlistH2D := if bDoTime then nb.didPairlistH2D.set iloc true else nb.didPairlistH2D
  let (sci, nsci, sci_nalloc) :=
    reallocateDeviceBuffer be d_plist.sci h_plist.sci.length d_plist.sci_nalloc
  let (cj4, ncj4, cj4_nalloc) :=
    reallocateDeviceBuffer be d_plist.cj4 h_plist.cj4.length d_plist.cj4_nalloc
  let (imask, nimask, imask_nalloc) :=
    reallocateDeviceBuffer be d_plist.imask
      (h_plist.cj4.length * be.c_nbnxnGpuClusterpairSplit) d_plist.imask_nalloc
  let (excl, nexcl, excl_nalloc) :=
    reallocateDeviceBuffer be d_plist.excl h_plist.excl.length d_plist.excl_nalloc
  let issued : List DeviceCall :=
    (if bDoTime then [.openTimingRegion (.pl_h2d iloc) iloc] else [])
      ++ [.copyToDeviceBuffer (.sci iloc) 0 h_plist.sci.length iloc bDoTime,
          .copyToDeviceBuffer (.cj4 iloc) 0 h_plist.cj4.length iloc bDoTime,
          .copyToDeviceBuffer (.excl iloc) 0 h_plist.excl.length iloc bDoTime]
      ++ (if bDoTime then [.closeTimingRegion (.pl_h2d iloc) iloc] else [])
  let d_plist : gpu_plist :=
    { d_plist with
      sci := sci, nsci := nsci, sci_nalloc := sci_nalloc
      cj4 := cj4, ncj4 := ncj4, cj4_nalloc := cj4_nalloc
      imask := imask, nimask := nimask, imask_nalloc := imask_nalloc
      excl := excl, nexcl := nexcl, excl_nalloc := excl_nalloc
      haveFreshList := true }
  pure { nb with
    plist := nb.plist.set iloc d_plist
    didPairlistH2D := didPairlistH2D
    calls := nb.calls ++ issued }

/-- A run of uploads of host pair lists into the list of one locality, in order;
it stops at the first upload that fails. -/
def gpu_init_pairlist_seq (be : Backend) (iloc : InteractionLocality) :
    NbnxmGpu → List NbnxnPairlistGpu → Except GmxError NbnxmGpu
  | nb, [] => .ok nb
  | nb, h_plist :: rest =>
    match gpu_init_pairlist be nb h_plist iloc with
    | .ok nb1 => gpu_init_pairlist_seq be iloc nb1 rest
    | .error e => .error e

/-- Update of the short-range work flag (setupGpuShortRangeWork); a null gpuBonded
pointer is none. -/
def setupGpuShortRangeWork (nb : NbnxmGpu) (gpuBonded : Option GpuBonded)
    (iLocality : InteractionLocality) : NbnxmGpu :=
  { nb with
    haveWork := nb.haveWork.set iLocality
      (((nb.plist.get iLocality).nsci != 0)
        || (match gpuBonded with
            | none => false
            | some b => b.haveInteractions)) }

/-- Modelled from the spec: the overload of haveGpuShortRangeWork that takes an
interaction locality, defined in a header that is not part of this source file;
it reads the per-locality work flag. -/
def haveGpuShortRangeWorkInteraction (nb : NbnxmGpu) (iloc : InteractionLocality) : Bool :=
  nb.haveWork.get iloc

/-- Query of the work flag by atom locality (haveGpuShortRangeWork). -/
def haveGpuShortRangeWork (nb : NbnxmGpu) (aLocality : AtomLocality) : Bool :=
  haveGpuShortRangeWorkInteraction nb (gpuAtomToInteractionLocality aLocality)

/-- The helper issueClFlushInStream: in an OpenCL build it flushes the stream and
throws InternalError when the flush fails; otherwise it does nothing. -/
def issueClFlushInStream (cfg : BuildConfig) (be : Backend) (nb : NbnxmGpu)
    (stream : InteractionLocality) : Except GmxError NbnxmGpu :=
  if cfg.GMX_GPU_OPENCL then
    if be.clFlushSucceeds stream then
      .ok { nb with calls := nb.calls ++ [.clFlush stream] }
    else
      .error .InternalError
  else
    .ok nb

/-- Insertion of the cross-stream dependency (nbnxnInsertNonlocalGpuDependency). -/
def nbnxnInsertNonlocalGpuDependency (cfg : BuildConfig) (be : Backend) (nb : NbnxmGpu)
    (interactionLocality : InteractionLocality) : Except GmxError NbnxmGpu :=
  if nb.bUseTwoStreams then
    if interactionLocality = .Local then
      issueClFlushInStream cfg be
        { nb with calls := nb.calls ++ [.markEvent interactionLocality] } interactionLocality
    else
      .ok { nb with calls := nb.calls ++ [.enqueueWaitEvent interactionLocality] }
  else
    .ok nb

/-- The backend calls of the timed coordinate transfer of gpu_copy_xq_to_gpu. -/
def xqTransferCalls (bDoTime : Bool) (atomLocality : AtomLocality) (atomsRange : Range) :
    List DeviceCall :=
  let stream := gpuAtomToInteractionLocality atomLocality
  (if bDoTime then [.openTimingRegion (.nb_h2d atomLocality) stream] else [])
    ++ [.copyToDeviceBuffer .xq atomsRange.begin atomsRange.size stream false]
    ++ (if bDoTime then [.closeTimingRegion (.nb_h2d atomLocality) stream] else [])

/-- Asynchronous launch of the coordinate upload (gpu_copy_xq_to_gpu).  A failed
GMX_ASSERT aborts the process, so the timing region opened just before it leaves
no trace in the result. -/
def gpu_copy_xq_to_gpu (cfg : BuildConfig) (be : Backend) (nb : NbnxmGpu)
    (nbatom : nbnxn_atomdata_t) (atomLocality : AtomLocality) : Except GmxError NbnxmGpu :=
  let iloc := gpuAtomToInteractionLocality atomLocality
  let plist := nb.plist.get iloc
  let bDoTime := nb.bDoTime
  if iloc = .NonLocal ∧ haveGpuShortRangeWorkInteraction nb iloc = false then
    .ok { nb with
      plist := nb.plist.set iloc { plist with haveFreshList := false }
      calls := nb.calls ++ [.resetEvent] }
  else do
    let atomsRange := be.getGpuAtomRange nb.atdat atomLocality
    debugAssert cfg (nbatom.XFormat == .nbatXYZQ)
    nbnxnInsertNonlocalGpuDependency cfg be
      { nb with calls := nb.calls ++ xqTransferCalls bDoTime atomLocality atomsRange } iloc

/-! ## Parameter refresh and timings -/

/-- The pair list parameters that set_cutoff_parameters reads (PairlistParams). -/
structure PairlistParams where
  rlistOuter : ℚ
  rlistInner : ℚ
  useDynamicPruning : Bool
  deriving DecidableEq

/-- The nonbonded context nonbonded_verlet_t, as far as this file reads it: the
result of useGpu(), the pointer gpu_nbv (none is the null pointer) and the
parameters pairlistSets().params(). -/
structure nonbonded_verlet_t where
  useGpu : Bool
  gpu_nbv : Option NbnxmGpu
  pairlistParams : PairlistParams

/-- The macro GMX_RELEASE_ASSERT: checked in every build. -/
def releaseAssert (condition : Bool) : Except GmxError Unit :=
  if condition then .ok () else .error .AssertionFailure

/-- Refresh of the Ewald correction table (init_ewald_coulomb_force_table).  The
backend primitives destroyParamLookupTable and initParamLookupTable show in the
coulomb_tab field: an existing table is destroyed first, then the table is built
from the host values. -/
def init_ewald_coulomb_force_table (tables : EwaldCorrectionTables) (nbp : NBParamGpu) :
    NBParamGpu :=
  let nbp : NBParamGpu :=
    if nbp.coulomb_tab.isSome then { nbp with coulomb_tab := none } else nbp
  let nbp : NBParamGpu := { nbp with coulomb_tab_scale := tables.scale }
  { nbp with coulomb_tab := some tables.tableF }

/-- Copy of the cutoff parameters into the parameter block (set_cutoff_parameters). -/
def set_cutoff_parameters (nbp : NBParamGpu) (ic : interaction_const_t)
    (listParams : PairlistParams) : NBParamGpu :=
  { nbp with
    ewald_beta := ic.ewaldcoeff_q
    sh_ewald := ic.sh_ewald
    epsfac := ic.epsfac
    two_k_rf := 2 * ic.reactionFieldCoefficient
    c_rf := ic.reactionFieldShift
    rvdw_sq := ic.rvdw * ic.rvdw
    rcoulomb_sq := ic.rcoulomb * ic.rcoulomb
    rlistOuter_sq := listParams.rlistOuter * listParams.rlistOuter
    rlistInner_sq := listParams.rlistInner * listParams.rlistInner
    useDynamicPruning := listParams.useDynamicPruning
    sh_lj_ewald := ic.sh_lj_ewald
    ewaldcoeff_lj := ic.ewaldcoeff_lj
    rvdw_switch := ic.rvdw_switch
    dispersion_shift := ic.dispersion_shift
    repulsion_shift := ic.repulsion_shift
    vdw_switch := ic.vdw_switch }

/-- Parameter update after PME load balancing (gpu_pme_loadbal_update_param); a
null nbv is none. -/
def gpu_pme_loadbal_update_param (cfg : BuildConfig) (env : Environment)
    (nbv : Option nonbonded_verlet_t) (ic : interaction_const_t) :
    Except GmxError (Option nonbonded_verlet_t) :=
  match nbv with
  | none => .ok none
  | some v =>
    if !v.useGpu then
      .ok (some v)
    else
      match v.gpu_nbv with
      | none => .error .NullPointerDereference
      | some nb => do
        let nbp := set_cutoff_parameters nb.nbparam ic v.pairlistParams
        let elecType ← nbnxn_gpu_pick_ewald_kernel_type cfg env ic nb.deviceInfo
        let nbp : NBParamGpu := { nbp with elecType := elecType }
        releaseAssert ic.coulombEwaldTables.isSome
        match ic.coulombEwaldTables with
        | none => .error .NullPointerDereference
        | some tables =>
          pure (some { v with
            gpu_nbv := some { nb with nbparam := init_ewald_coulomb_force_table tables nbp } })

/-- Reset of a timing accumulator (init_timings). -/
def init_timings (t : gmx_wallclock_gpu_nbnxn_t) : gmx_wallclock_gpu_nbnxn_t :=
  { t with
    nb_h2d_t := 0
    nb_d2h_t := 0
    nb_c := 0
    pl_h2d_t := 0
    pl_h2d_c := 0
    ktime := fun _ _ => { t := 0, c := 0 }
    pruneTime := { t := 0, c := 0 }
    dynamicPruneTime := { t := 0, c := 0 } }

/-- Access to the timings (gpu_get_timings); a null nb is none, and so is the
returned null pointer. -/
def gpu_get_timings (nb : Option NbnxmGpu) : Option gmx_wallclock_gpu_nbnxn_t :=
  match nb with
  | none => none
  | some nb => if nb.bDoTime then some nb.timings else none

/-- Reset of the timings of a context (gpu_reset_timings). -/
def gpu_reset_timings (nbv : nonbonded_verlet_t) : nonbonded_verlet_t :=
  match nbv.gpu_nbv with
  | none => nbv
  | some nb =>
    if nb.bDoTime then
      { nbv with gpu_nbv := some { nb with timings := init_timings nb.timings } }
    else
      nbv

/-- Test for an analytical Ewald kernel (gpu_is_kernel_ewald_analytical). -/
def gpu_is_kernel_ewald_analytical (nb : NbnxmGpu) : Bool :=
  (nb.nbparam.elecType == .EwaldAna) || (nb.nbparam.elecType == .EwaldAnaTwin)

/-! ## Dependency insertion with the state at a throw

An exception leaves the session as it is at the throw.  The two functions below
return that session together with the exception, if any; the functions
issueClFlushInStream and nbnxnInsertNonlocalGpuDependency above are these with
the session dropped when an exception is thrown. -/

/-- The helper issueClFlushInStream, with the session at return or at the throw. -/
def issueClFlushInStream_trace (cfg : BuildConfig) (be : Backend) (nb : NbnxmGpu)
    (stream : InteractionLocality) : NbnxmGpu × Option GmxError :=
  if cfg.GMX_GPU_OPENCL then
    ({ nb with calls := nb.calls ++ [.clFlush stream] },
      if be.clFlushSucceeds stream then none else some .InternalError)
  else
    (nb, none)

/-- The function nbnxnInsertNonlocalGpuDependency, with the session at return or at
the throw. -/
def nbnxnInsertNonlocalGpuDependency_trace (cfg : BuildConfig) (be : Backend) (nb : NbnxmGpu)
    (interactionLocality : InteractionLocality) : NbnxmGpu × Option GmxError :=
  if nb.bUseTwoStreams then
    if interactionLocality = .Local then
      issueClFlushInStream_trace cfg be
        { nb with calls := nb.calls ++ [.markEvent interactionLocality] } interactionLocality
    else
      ({ nb with calls := nb.calls ++ [.enqueueWaitEvent interactionLocality] }, none)
  else
    (nb, none)

/-- A run of dependency insertions, in order; it stops at the first exception and
keeps the session reached there. -/
def nbnxnInsertNonlocalGpuDependency_seq (cfg : BuildConfig) (be : Backend) :
    NbnxmGpu → List InteractionLocality → NbnxmGpu × Option GmxError
  | nb, [] => (nb, none)
  | nb, iloc :: rest =>
    match nbnxnInsertNonlocalGpuDependency_trace cfg be nb iloc with
    | (nb1, none) => nbnxnInsertNonlocalGpuDependency_seq cfg be nb1 rest
    | (nb1, some e) => (nb1, some e)

/-! ## Example values used to instantiate the results -/

/-- A backend: capacities equal to the requested size, cluster-pair split 2,
flushes that succeed, local atoms first and non-local atoms after them. -/
def exampleBackend : Backend where
  over_alloc_large := fun n => n
  c_nbnxnGpuClusterpairSplit := 2
  clFlushSucceeds := fun _ => true
  getGpuAtomRange := fun adat atomLocality =>
    match atomLocality with
    | .Local => ⟨0, adat.numAtomsLocal⟩
    | .NonLocal => ⟨adat.numAtomsLocal, adat.numAtoms⟩

/-- A pair list with every field zero, as storage handed to init_plist. -/
def zeroPlist : gpu_plist :=
  { na_c := 0, nsci := 0, sci_nalloc := 0, ncj4 := 0, cj4_nalloc := 0, nimask := 0,
    imask_nalloc := 0, nexcl := 0, excl_nalloc := 0, sci := .nullptr, cj4 := .nullptr,
    imask := .nullptr, excl := .nullptr, haveFreshList := false,
    rollingPruningNumParts := 0, rollingPruningPart := 0 }

/-- A parameter block with every field zero and the Cut selectors. -/
def zeroParam : NBParamGpu :=
  { elecType := .Cut, vdwType := .Cut, ewald_beta := 0, sh_ewald := 0, epsfac := 0,
    two_k_rf := 0, c_rf := 0, rvdw_sq := 0, rcoulomb_sq := 0, rlistOuter_sq := 0,
    rlistInner_sq := 0, useDynamicPruning := false, sh_lj_ewald := 0, ewaldcoeff_lj := 0,
    rvdw_switch := 0, dispersion_shift := ⟨0, 0, 0⟩, repulsion_shift := ⟨0, 0, 0⟩,
    vdw_switch := ⟨0, 0, 0⟩, coulomb_tab_scale := 0, coulomb_tab := none }

/-- Timings with every counter and duration zero. -/
def zeroTimings : gmx_wallclock_gpu_nbnxn_t :=
  { nb_h2d_t := 0, nb_d2h_t := 0, nb_c := 0, pl_h2d_t := 0, pl_h2d_c := 0,
    ktime := fun _ _ => ⟨0, 0⟩, pruneTime := ⟨0, 0⟩, dynamicPruneTime := ⟨0, 0⟩ }

/-- A session right after construction: two streams, no timing, both pair lists
in the init_plist state, 100 local atoms out of 150, no call issued yet, a
device of compute capability 6.1. -/
def freshSession : NbnxmGpu :=
  { bDoTime := false
    bUseTwoStreams := true
    atdat := ⟨150, 100⟩
    nbparam := zeroParam
    plist := ⟨init_plist zeroPlist, init_plist zeroPlist⟩
    haveWork := ⟨false, false⟩
    didPairlistH2D := ⟨false, false⟩
    timings := zeroTimings
    calls := []
    deviceInfo := ⟨⟨6, 1⟩⟩ }

/-- A host pair list with the given atoms-per-cluster value and entry count. -/
def hostList (na_ci : Int) (entries : Nat) : NbnxnPairlistGpu :=
  { na_ci := na_ci
    sci := List.replicate entries 0
    cj4 := List.replicate entries 0
    excl := List.replicate entries 0 }

/-- Interaction constants for Ewald electrostatics and plain cut-off van der Waals
with the two given cutoffs; every coefficient is zero. -/
def ewaldConstants (rcoulomb rvdw : ℚ) : interaction_const_t :=
  { eeltype := .Ewald, vdwtype := .Cut, vdw_modifier := .None, ljpme_comb_rule := .Geom,
    rcoulomb := rcoulomb, rvdw := rvdw, rvdw_switch := 0, ewaldcoeff_q := 0,
    ewaldcoeff_lj := 0, sh_ewald := 0, sh_lj_ewald := 0, epsfac := 0,
    reactionFieldCoefficient := 0, reactionFieldShift := 0, dispersion_shift := ⟨0, 0, 0⟩,
    repulsion_shift := ⟨0, 0, 0⟩, vdw_switch := ⟨0, 0, 0⟩, coulombEwaldTables := none }

/-- No override is set. -/
def noOverrides : Environment := ⟨false, false, false⟩

/-- A CUDA release build. -/
def cudaRelease : BuildConfig := ⟨true, false, true⟩

/-- A CUDA build with assertions compiled in. -/
def cudaDebug : BuildConfig := ⟨true, false, false⟩

/-- Interaction constants with particle-mesh van der Waals and the geometric
long-range rule. -/
def pmeGeomConstants : interaction_const_t :=
  { ewaldConstants 1 1 with vdwtype := .Pme, ljpme_comb_rule := .Geom }

/-- True for the calls that transfer data to the device. -/
def DeviceCall.isTransfer : DeviceCall → Bool
  | .copyToDeviceBuffer _ _ _ _ _ => true
  | _ => false

/-- The session reached from freshSession by uploading an empty host pair list with
8 atoms per cluster into the local and then into the non-local list. -/
def emptyListsSession : NbnxmGpu :=
  { freshSession with
    plist :=
      ⟨{ na_c := 8, nsci := 0, sci_nalloc := 0, ncj4 := 0, cj4_nalloc := 0, nimask := 0,
         imask_nalloc := 0, nexcl := 0, excl_nalloc := 0, sci := .allocated 0,
         cj4 := .allocated 0, imask := .allocated 0, excl := .allocated 0,
         haveFreshList := true, rollingPruningNumParts := 0, rollingPruningPart := 0 },
       { na_c := 8, nsci := 0, sci_nalloc := 0, ncj4 := 0, cj4_nalloc := 0, nimask := 0,
         imask_nalloc := 0, nexcl := 0, excl_nalloc := 0, sci := .allocated 0,
         cj4 := .allocated 0, imask := .allocated 0, excl := .allocated 0,
         haveFreshList := true, rollingPruningNumParts := 0, rollingPruningPart := 0 }⟩
    calls :=
      [.copyToDeviceBuffer (.sci .Local) 0 0 .Local false,
       .copyToDeviceBuffer (.cj4 .Local) 0 0 .Local false,
       .copyToDeviceBuffer (.excl .Local) 0 0 .Local false,
       .copyToDeviceBuffer (.sci .NonLocal) 0 0 .NonLocal false,
       .copyToDeviceBuffer (.cj4 .NonLocal) 0 0 .NonLocal false,
       .copyToDeviceBuffer (.excl .NonLocal) 0 0 .NonLocal false] }

/-- Host coordinates in the XYZQ layout. -/
def xyzqAtoms : nbnxn_atomdata_t := ⟨.nbatXYZQ, []⟩

/-- Host coordinates in a layout other than XYZQ. -/
def otherLayoutAtoms : nbnxn_atomdata_t := ⟨.other 0, []⟩

/-- A GPU-enabled context around emptyListsSession. -/
def gpuContext : nonbonded_verlet_t :=
  { useGpu := true, gpu_nbv := some emptyListsSession, pairlistParams := ⟨2, 1, true⟩ }

/-- Correction tables with scale 500 and three force values. -/
def smallTables : EwaldCorrectionTables := ⟨500, [1, 2, 3]⟩

/-- Interaction constants of the plain cut-off electrostatics model with both
cutoffs 1, carrying smallTables. -/
def cutoffConstantsWithTables : interaction_const_t :=
  { ewaldConstants 1 1 with eeltype := .Cut, coulombEwaldTables := some smallTables }

/-- Interaction constants of plain Ewald electrostatics with both cutoffs 1,
carrying smallTables. -/
def ewaldConstantsWithTables : interaction_const_t :=
  { ewaldConstants 1 1 with coulombEwaldTables := some smallTables }

/-! ## Properties of the Ewald selector -/

/-- C2: nbnxn_gpu_pick_ewald_kernel_type stops with gmx_incons exactly when both
the force-analytical and the force-tabulated override are set, whatever the
cutoffs, the twin-cutoff override, the build and the device are; when at most
one of the two is set it returns a variant and raises nothing. -/
theorem pick_ewald_conflict (cfg : BuildConfig) (env : Environment)
    (ic : interaction_const_t) (deviceInfo : DeviceInformation) :
    (nbnxn_gpu_pick_ewald_kernel_type cfg env ic deviceInfo = .error .gmx_incons
        ↔ (env.GMX_GPU_NB_ANA_EWALD = true ∧ env.GMX_GPU_NB_TAB_EWALD = true))
      ∧ (¬ (env.GMX_GPU_NB_ANA_EWALD = true ∧ env.GMX_GPU_NB_TAB_EWALD = true)
          → ∃ v, nbnxn_gpu_pick_ewald_kernel_type cfg env ic deviceInfo = .ok v) := by
  obtain ⟨ana, tab, twin⟩ := env
  cases ana <;> cases tab <;> simp [nbnxn_gpu_pick_ewald_kernel_type] <;> split <;> simp

/-- C3: when the two overrides do not conflict, equal Coulomb and van der Waals
cutoffs without the twin-cutoff override give a plain variant (EwaldAna or
EwaldTab), and unequal cutoffs give a twin-cutoff variant (EwaldAnaTwin or
EwaldTabTwin) whatever the overrides, the build and the device are. -/
theorem pick_ewald_twin_axis (cfg : BuildConfig) (env : Environment)
    (ic : interaction_const_t) (deviceInfo : DeviceInformation)
    (hno : ¬ (env.GMX_GPU_NB_ANA_EWALD = true ∧ env.GMX_GPU_NB_TAB_EWALD = true)) :
    (ic.rcoulomb = ic.rvdw → env.GMX_GPU_NB_EWALD_TWINCUT = false →
        ∃ v, nbnxn_gpu_pick_ewald_kernel_type cfg env ic deviceInfo = .ok v
          ∧ (v = .EwaldAna ∨ v = .EwaldTab) ∧ v ≠ .EwaldAnaTwin ∧ v ≠ .EwaldTabTwin)
      ∧ (ic.rcoulomb ≠ ic.rvdw →
          ∃ v, nbnxn_gpu_pick_ewald_kernel_type cfg env ic deviceInfo = .ok v
            ∧ (v = .EwaldAnaTwin ∨ v = .EwaldTabTwin)) := by
  obtain ⟨ana, tab, twin⟩ := env
  refine ⟨fun heq htw => ?_, fun hne => ?_⟩
  · simp only at htw
    subst htw
    unfold nbnxn_gpu_pick_ewald_kernel_type
    generalize c_useTabulatedEwaldDefault cfg deviceInfo = tabDefault
    cases ana <;> cases tab <;> cases tabDefault <;> simp_all
  · unfold nbnxn_gpu_pick_ewald_kernel_type
    generalize c_useTabulatedEwaldDefault cfg deviceInfo = tabDefault
    cases ana <;> cases tab <;> cases tabDefault <;> simp_all

/-- Instance of C3: cutoffs 1 and 1 without overrides give a plain variant, cutoffs
1 and 2 give a twin-cutoff variant, on a device of compute capability 6.1. -/
theorem pick_ewald_twin_axis_witness :
    (∃ v, nbnxn_gpu_pick_ewald_kernel_type cudaRelease noOverrides (ewaldConstants 1 1) ⟨⟨6, 1⟩⟩
        = .ok v ∧ (v = .EwaldAna ∨ v = .EwaldTab) ∧ v ≠ .EwaldAnaTwin ∧ v ≠ .EwaldTabTwin)
      ∧ (∃ v, nbnxn_gpu_pick_ewald_kernel_type cudaRelease noOverrides (ewaldConstants 1 2)
          ⟨⟨6, 1⟩⟩ = .ok v ∧ (v = .EwaldAnaTwin ∨ v = .EwaldTabTwin)) :=
  ⟨(pick_ewald_twin_axis cudaRelease noOverrides (ewaldConstants 1 1) ⟨⟨6, 1⟩⟩
      (by decide)).1 rfl rfl,
   (pick_ewald_twin_axis cudaRelease noOverrides (ewaldConstants 1 2) ⟨⟨6, 1⟩⟩
      (by decide)).2 (by simp [ewaldConstants])⟩

/-- C4: when the two overrides do not conflict, the analytical-or-tabulated axis of
the result is fixed as follows.  With the force-analytical override the result is
analytical on every device; with the force-tabulated override it is tabulated on
every device; with neither it is tabulated exactly when the build is a CUDA build
and the compute capability is 7.0 or 8.0, and analytical otherwise.  Cutoffs and
the twin-cutoff override play no part. -/
theorem pick_ewald_analytical_axis (cfg : BuildConfig) (env : Environment)
    (ic : interaction_const_t) (deviceInfo : DeviceInformation)
    (hno : ¬ (env.GMX_GPU_NB_ANA_EWALD = true ∧ env.GMX_GPU_NB_TAB_EWALD = true)) :
    ∃ v, nbnxn_gpu_pick_ewald_kernel_type cfg env ic deviceInfo = .ok v
      ∧ (env.GMX_GPU_NB_ANA_EWALD = true → (v = .EwaldAna ∨ v = .EwaldAnaTwin))
      ∧ (env.GMX_GPU_NB_TAB_EWALD = true → (v = .EwaldTab ∨ v = .EwaldTabTwin))
      ∧ (env.GMX_GPU_NB_ANA_EWALD = false → env.GMX_GPU_NB_TAB_EWALD = false →
          ((v = .EwaldTab ∨ v = .EwaldTabTwin)
              ↔ (cfg.GMX_GPU_CUDA = true
                  ∧ ((deviceInfo.prop.major = 7 ∧ deviceInfo.prop.minor = 0)
                    ∨ (deviceInfo.prop.major = 8 ∧ deviceInfo.prop.minor = 0))))
            ∧ ((v = .EwaldAna ∨ v = .EwaldAnaTwin)
              ↔ ¬ (cfg.GMX_GPU_CUDA = true
                  ∧ ((deviceInfo.prop.major = 7 ∧ deviceInfo.prop.minor = 0)
                    ∨ (deviceInfo.prop.major = 8 ∧ deviceInfo.prop.minor = 0))))) := by
  have hdef : c_useTabulatedEwaldDefault cfg deviceInfo = true
      ↔ (cfg.GMX_GPU_CUDA = true
          ∧ ((deviceInfo.prop.major = 7 ∧ deviceInfo.prop.minor = 0)
            ∨ (deviceInfo.prop.major = 8 ∧ deviceInfo.prop.minor = 0))) := by
    unfold c_useTabulatedEwaldDefault
    cases cfg.GMX_GPU_CUDA <;> simp
  rw [← hdef]
  clear hdef
  obtain ⟨ana, tab, twin⟩ := env
  unfold nbnxn_gpu_pick_ewald_kernel_type
  generalize c_useTabulatedEwaldDefault cfg deviceInfo = tabDefault
  generalize (ic.rcoulomb != ic.rvdw) = bTwinCut
  cases ana <;> cases tab <;> cases tabDefault <;> cases bTwinCut <;> cases twin <;> simp_all

/-- Instance of C4: with both cutoffs 1 and no override the selector returns
EwaldAna on compute capability 6.1 and EwaldTab on compute capability 7.0 and 8.0
of a CUDA build. -/
theorem pick_ewald_analytical_axis_witness :
    nbnxn_gpu_pick_ewald_kernel_type cudaRelease noOverrides (ewaldConstants 1 1) ⟨⟨6, 1⟩⟩
        = .ok .EwaldAna
      ∧ nbnxn_gpu_pick_ewald_kernel_type cudaRelease noOverrides (ewaldConstants 1 1) ⟨⟨7, 0⟩⟩
        = .ok .EwaldTab
      ∧ nbnxn_gpu_pick_ewald_kernel_type cudaRelease noOverrides (ewaldConstants 1 1) ⟨⟨8, 0⟩⟩
        = .ok .EwaldTab
      ∧ ∃ v, nbnxn_gpu_pick_ewald_kernel_type cudaRelease noOverrides (ewaldConstants 1 1)
          ⟨⟨6, 1⟩⟩ = .ok v ∧ (v = .EwaldAna ∨ v = .EwaldAnaTwin) := by
  refine ⟨by decide, by decide, by decide, ?_⟩
  obtain ⟨v, hv, _, _, h⟩ :=
    pick_ewald_analytical_axis cudaRelease noOverrides (ewaldConstants 1 1) ⟨⟨6, 1⟩⟩ (by decide)
  exact ⟨v, hv, ((h rfl rfl).2).2 (by decide)⟩

/-! ## Properties of the electrostatics and van der Waals selectors -/

/-- C5: nbnxmGpuPickElectrostaticsKernelType returns Cut for the plain cut-off
model, RF for a model in the reaction-field family (EEL_RF), and for a
particle-mesh variant (EEL_PME) or plain Ewald exactly the result of
nbnxn_gpu_pick_ewald_kernel_type, which when it is a variant is one of the four
Ewald variants and never Cut or RF; for every other model it throws
InconsistentInputError and returns no variant.  The families are tested in the
order of the source, which matters only if the two macros overlap or contain
Cut. -/
theorem pick_electrostatics_table (EEL_RF EEL_PME : CoulombInteractionType → Bool)
    (cfg : BuildConfig) (env : Environment) (ic : interaction_const_t)
    (deviceInfo : DeviceInformation) :
    (ic.eeltype = .Cut →
        nbnxmGpuPickElectrostaticsKernelType EEL_RF EEL_PME cfg env ic deviceInfo = .ok .Cut)
      ∧ (ic.eeltype ≠ .Cut → EEL_RF ic.eeltype = true →
          nbnxmGpuPickElectrostaticsKernelType EEL_RF EEL_PME cfg env ic deviceInfo = .ok .RF)
      ∧ (ic.eeltype ≠ .Cut → EEL_RF ic.eeltype = false →
          (EEL_PME ic.eeltype = true ∨ ic.eeltype = .Ewald) →
          nbnxmGpuPickElectrostaticsKernelType EEL_RF EEL_PME cfg env ic deviceInfo
              = nbnxn_gpu_pick_ewald_kernel_type cfg env ic deviceInfo
            ∧ ∀ v, nbnxmGpuPickElectrostaticsKernelType EEL_RF EEL_PME cfg env ic deviceInfo
                = .ok v →
              (v = .EwaldAna ∨ v = .EwaldTab ∨ v = .EwaldAnaTwin ∨ v = .EwaldTabTwin)
                ∧ v ≠ .Cut ∧ v ≠ .RF)
      ∧ (ic.eeltype ≠ .Cut → EEL_RF ic.eeltype = false → EEL_PME ic.eeltype = false →
          ic.eeltype ≠ .Ewald →
          nbnxmGpuPickElectrostaticsKernelType EEL_RF EEL_PME cfg env ic deviceInfo
              = .error .InconsistentInputError
            ∧ ∀ v, nbnxmGpuPickElectrostaticsKernelType EEL_RF EEL_PME cfg env ic deviceInfo
                ≠ .ok v) := by
  refine ⟨fun h => ?_, fun h1 h2 => ?_, fun h1 h2 h3 => ?_, fun h1 h2 h3 h4 => ?_⟩
  · simp [nbnxmGpuPickElectrostaticsKernelType, h]
  · simp [nbnxmGpuPickElectrostaticsKernelType, h1, h2]
  · have hsel : nbnxmGpuPickElectrostaticsKernelType EEL_RF EEL_PME cfg env ic deviceInfo
        = nbnxn_gpu_pick_ewald_kernel_type cfg env ic deviceInfo := by
      unfold nbnxmGpuPickElectrostaticsKernelType
      rw [if_neg h1]
      simp only [h2]
      rcases h3 with h3 | h3 <;> simp [h3]
    refine ⟨hsel, fun v hv => ?_⟩
    rw [hsel] at hv
    unfold nbnxn_gpu_pick_ewald_kernel_type at hv
    obtain ⟨ana, tab, twin⟩ := env
    generalize c_useTabulatedEwaldDefault cfg deviceInfo = tabDefault at hv
    generalize (ic.rcoulomb != ic.rvdw) = bTwinCut at hv
    cases ana <;> cases tab <;> cases tabDefault <;> cases bTwinCut <;> cases twin <;>
      simp_all <;> subst hv <;> simp
  · simp [nbnxmGpuPickElectrostaticsKernelType, h1, h2, h3, h4]

/-- C6: for a van der Waals model other than particle-mesh, nbnxmGpuPickVdwKernelType
follows this table.  Plain cut-off with modifier None or PotShift: Cut, CutCombGeom
and CutCombLB for the combination rules None, Geometric and LorentzBerthelot (three
distinct variants), InconsistentInputError for any other rule.  Plain cut-off with
ForceSwitch: FSwitch, and with PotSwitch: PSwitch, for every rule.  Plain cut-off
with any other modifier, and any model other than plain cut-off and particle-mesh:
InconsistentInputError. -/
theorem pick_vdw_table (cfg : BuildConfig) (ic : interaction_const_t) :
    (ic.vdwtype = .Cut → (ic.vdw_modifier = .None ∨ ic.vdw_modifier = .PotShift) →
        nbnxmGpuPickVdwKernelType cfg ic .None = .ok .Cut
          ∧ nbnxmGpuPickVdwKernelType cfg ic .Geometric = .ok .CutCombGeom
          ∧ nbnxmGpuPickVdwKernelType cfg ic .LorentzBerthelot = .ok .CutCombLB
          ∧ (∀ code, nbnxmGpuPickVdwKernelType cfg ic (.other code)
              = .error .InconsistentInputError))
      ∧ (VdwType.Cut ≠ VdwType.CutCombGeom ∧ VdwType.Cut ≠ VdwType.CutCombLB
          ∧ VdwType.CutCombGeom ≠ VdwType.CutCombLB)
      ∧ (ic.vdwtype = .Cut → ic.vdw_modifier = .ForceSwitch →
          ∀ rule, nbnxmGpuPickVdwKernelType cfg ic rule = .ok .FSwitch)
      ∧ (ic.vdwtype = .Cut → ic.vdw_modifier = .PotSwitch →
          ∀ rule, nbnxmGpuPickVdwKernelType cfg ic rule = .ok .PSwitch)
      ∧ (ic.vdwtype = .Cut → ∀ code, ic.vdw_modifier = .other code →
          ∀ rule, nbnxmGpuPickVdwKernelType cfg ic rule = .error .InconsistentInputError)
      ∧ (ic.vdwtype ≠ .Cut → ic.vdwtype ≠ .Pme →
          ∀ rule, nbnxmGpuPickVdwKernelType cfg ic rule = .error .InconsistentInputError) := by
  refine ⟨fun h hm => ?_, by decide, fun h hm rule => ?_, fun h hm rule => ?_,
    fun h code hm rule => ?_, fun h1 h2 rule => ?_⟩
  · rcases hm with hm | hm <;> simp [nbnxmGpuPickVdwKernelType, h, hm]
  · simp [nbnxmGpuPickVdwKernelType, h, hm]
  · simp [nbnxmGpuPickVdwKernelType, h, hm]
  · simp [nbnxmGpuPickVdwKernelType, h, hm]
  · simp [nbnxmGpuPickVdwKernelType, h1, h2]

/-- C7, as stated, fails: in a build with NDEBUG the assertion is compiled out, and
for particle-mesh van der Waals with the geometric long-range rule the selector
returns EwaldGeom although the supplied combination rule is None. -/
theorem pick_vdw_pme_release_no_check :
    nbnxmGpuPickVdwKernelType cudaRelease pmeGeomConstants .None = .ok .EwaldGeom
      ∧ pmeGeomConstants.vdwtype = .Pme
      ∧ LJCombinationRule.None ≠ LJCombinationRule.Geometric := by
  decide

/-- C7, amended: for particle-mesh van der Waals, in a build where assertions are
compiled in (NDEBUG not defined) the selector returns EwaldGeom exactly when the
long-range rule is Geom and the supplied rule is Geometric, EwaldLB exactly when
the long-range rule is not Geom and the supplied rule is LorentzBerthelot, and in
every other case the assertion fails and no variant is returned.  In a build with
NDEBUG nothing is checked and the variant follows the long-range rule alone. -/
theorem pick_vdw_pme (cfg : BuildConfig) (ic : interaction_const_t)
    (rule : LJCombinationRule) (hpme : ic.vdwtype = .Pme) :
    (cfg.NDEBUG = false →
        (nbnxmGpuPickVdwKernelType cfg ic rule = .ok .EwaldGeom
            ↔ (ic.ljpme_comb_rule = .Geom ∧ rule = .Geometric))
          ∧ (nbnxmGpuPickVdwKernelType cfg ic rule = .ok .EwaldLB
            ↔ (ic.ljpme_comb_rule ≠ .Geom ∧ rule = .LorentzBerthelot))
          ∧ (¬ (ic.ljpme_comb_rule = .Geom ∧ rule = .Geometric) →
              ¬ (ic.ljpme_comb_rule ≠ .Geom ∧ rule = .LorentzBerthelot) →
              nbnxmGpuPickVdwKernelType cfg ic rule = .error .AssertionFailure))
      ∧ (cfg.NDEBUG = true →
          nbnxmGpuPickVdwKernelType cfg ic rule
            = .ok (if ic.ljpme_comb_rule = .Geom then .EwaldGeom else .EwaldLB)) := by
  have hcut : ic.vdwtype ≠ .Cut := by rw [hpme]; decide
  refine ⟨fun hd => ?_, fun hd => ?_⟩
  · by_cases hg : ic.ljpme_comb_rule = .Geom
    · by_cases hr : rule = .Geometric <;>
        simp [nbnxmGpuPickVdwKernelType, debugAssert, hpme, hd, hg, hr, bind, Except.bind, pure,
          Except.pure]
    · by_cases hr : rule = .LorentzBerthelot <;>
        simp [nbnxmGpuPickVdwKernelType, debugAssert, hpme, hd, hg, hr, bind, Except.bind, pure,
          Except.pure]
  · by_cases hg : ic.ljpme_comb_rule = .Geom <;>
      simp [nbnxmGpuPickVdwKernelType, debugAssert, hpme, hd, hg, bind, Except.bind, pure,
        Except.pure]

/-- Instance of C7 amended: in a debug build, the geometric long-range rule with the
supplied rule None fails the assertion, and with the supplied rule Geometric
returns EwaldGeom. -/
theorem pick_vdw_pme_witness :
    nbnxmGpuPickVdwKernelType cudaDebug pmeGeomConstants .None = .error .AssertionFailure
      ∧ nbnxmGpuPickVdwKernelType cudaDebug pmeGeomConstants .Geometric = .ok .EwaldGeom :=
  ⟨((pick_vdw_pme cudaDebug pmeGeomConstants .None rfl).1 rfl).2.2 (by decide) (by decide),
   ((pick_vdw_pme cudaDebug pmeGeomConstants .Geometric rfl).1 rfl).1.2 ⟨rfl, rfl⟩⟩

/-! ## Properties of the pair list upload -/

theorem PerLocality.get_set_same {α : Type} (a : PerLocality α) (iloc : InteractionLocality)
    (v : α) : (a.set iloc v).get iloc = v := by
  cases iloc <;> rfl

theorem PerLocality.get_set_other {α : Type} (a : PerLocality α)
    (iloc jloc : InteractionLocality) (v : α) (h : jloc ≠ iloc) :
    (a.set iloc v).get jloc = a.get jloc := by
  cases iloc <;> cases jloc <;> first | rfl | exact absurd rfl h

/-- The upload fails exactly as the atoms-per-cluster check does. -/
theorem gpu_init_pairlist_error (be : Backend) (nb : NbnxmGpu) (h_plist : NbnxnPairlistGpu)
    (iloc : InteractionLocality) (e : GmxError)
    (hc : gpu_init_pairlist_na_c (nb.plist.get iloc) h_plist = .error e) :
    gpu_init_pairlist be nb h_plist iloc = .error e := by
  simp [gpu_init_pairlist, hc, bind, Except.bind]

/-- When the atoms-per-cluster check passes, the upload succeeds, keeps the checked
value of na_c, sets the logical sizes from the host list and marks the list
fresh. -/
theorem gpu_init_pairlist_ok (be : Backend) (nb : NbnxmGpu) (h_plist : NbnxnPairlistGpu)
    (iloc : InteractionLocality) (d : gpu_plist)
    (hc : gpu_init_pairlist_na_c (nb.plist.get iloc) h_plist = .ok d) :
    ∃ nb1, gpu_init_pairlist be nb h_plist iloc = .ok nb1
      ∧ (nb1.plist.get iloc).na_c = d.na_c
      ∧ (nb1.plist.get iloc).nsci = h_plist.sci.length
      ∧ (nb1.plist.get iloc).haveFreshList = true := by
  simp only [gpu_init_pairlist, hc, bind, Except.bind, pure, Except.pure]
  refine ⟨_, rfl, ?_, ?_, ?_⟩
  · simp only [PerLocality.get_set_same]
  · simp only [PerLocality.get_set_same, reallocateDeviceBuffer]
    split <;> rfl
  · simp only [PerLocality.get_set_same]

/-- One upload into a list whose recorded value is r: a host list with the same
value is accepted and leaves r in place. -/
theorem gpu_init_pairlist_same (be : Backend) (nb : NbnxmGpu) (g : NbnxnPairlistGpu)
    (iloc : InteractionLocality) (hg : g.na_ci = (nb.plist.get iloc).na_c) :
    ∃ nb1, gpu_init_pairlist be nb g iloc = .ok nb1
      ∧ (nb1.plist.get iloc).na_c = (nb.plist.get iloc).na_c := by
  by_cases hneg : (nb.plist.get iloc).na_c < 0
  · obtain ⟨nb1, h1, h2, _⟩ := gpu_init_pairlist_ok be nb g iloc
      { nb.plist.get iloc with na_c := g.na_ci } (by simp [gpu_init_pairlist_na_c, hneg])
    exact ⟨nb1, h1, by rw [h2]; exact hg⟩
  · obtain ⟨nb1, h1, h2, _⟩ := gpu_init_pairlist_ok be nb g iloc (nb.plist.get iloc)
      (by simp [gpu_init_pairlist_na_c, hneg, hg])
    exact ⟨nb1, h1, h2⟩

/-- One upload into a list whose recorded value is non-negative: a host list with
another value stops with gmx_incons. -/
theorem gpu_init_pairlist_differs (be : Backend) (nb : NbnxmGpu) (g : NbnxnPairlistGpu)
    (iloc : InteractionLocality) (hrec : 0 ≤ (nb.plist.get iloc).na_c)
    (hg : g.na_ci ≠ (nb.plist.get iloc).na_c) :
    gpu_init_pairlist be nb g iloc = .error .gmx_incons := by
  apply gpu_init_pairlist_error
  have hneg : ¬ (nb.plist.get iloc).na_c < 0 := not_lt.mpr hrec
  simp [gpu_init_pairlist_na_c, hneg, Ne.symm hg]

/-- A run of uploads that all carry the recorded value succeeds and keeps it. -/
theorem gpu_init_pairlist_seq_same (be : Backend) (iloc : InteractionLocality)
    (pre : List NbnxnPairlistGpu) :
    ∀ nb : NbnxmGpu, (∀ p ∈ pre, p.na_ci = (nb.plist.get iloc).na_c) →
      ∃ nbk, gpu_init_pairlist_seq be iloc nb pre = .ok nbk
        ∧ (nbk.plist.get iloc).na_c = (nb.plist.get iloc).na_c := by
  induction pre with
  | nil => intro nb _; exact ⟨nb, rfl, rfl⟩
  | cons p rest ih =>
    intro nb hall
    obtain ⟨nb1, h1, h2⟩ := gpu_init_pairlist_same be nb p iloc (hall p (by simp))
    obtain ⟨nbk, hk1, hk2⟩ := ih nb1 (fun q hq => by rw [h2]; exact hall q (by simp [hq]))
    exact ⟨nbk, by simp [gpu_init_pairlist_seq, h1, hk1], by rw [hk2, h2]⟩

/-- A run followed by one more upload is the run and then that upload. -/
theorem gpu_init_pairlist_seq_snoc (be : Backend) (iloc : InteractionLocality)
    (pre : List NbnxnPairlistGpu) (g : NbnxnPairlistGpu) :
    ∀ nb nbk : NbnxmGpu, gpu_init_pairlist_seq be iloc nb pre = .ok nbk →
      gpu_init_pairlist_seq be iloc nb (pre ++ [g]) = gpu_init_pairlist be nbk g iloc := by
  induction pre with
  | nil =>
    intro nb nbk h
    simp only [gpu_init_pairlist_seq, Except.ok.injEq] at h
    subst h
    simp only [List.nil_append, gpu_init_pairlist_seq]
    cases gpu_init_pairlist be nb g iloc <;> rfl
  | cons p rest ih =>
    intro nb nbk h
    simp only [List.cons_append, gpu_init_pairlist_seq] at h ⊢
    cases hp : gpu_init_pairlist be nb p iloc with
    | error e => simp [hp] at h
    | ok nb1 =>
      simp only [hp] at h ⊢
      exact ih nb1 nbk h

/-- C1, as stated, fails: after init_plist a first upload with na_ci = -2 records
-2, and a second upload with na_ci = 8 does not stop with gmx_incons; it succeeds
and replaces the recorded value by 8, because a negative na_c still reads as
not yet set. -/
theorem gpu_init_pairlist_negative_value_rerecorded :
    (∃ nb1, gpu_init_pairlist exampleBackend freshSession (hostList (-2) 1) .Local = .ok nb1
        ∧ (nb1.plist.get .Local).na_c = -2)
      ∧ (∃ nb2, gpu_init_pairlist_seq exampleBackend .Local freshSession
            [hostList (-2) 1, hostList 8 1] = .ok nb2
          ∧ (nb2.plist.get .Local).na_c = 8)
      ∧ (hostList 8 1).na_ci ≠ (hostList (-2) 1).na_ci :=
  ⟨⟨_, rfl, by decide⟩, ⟨_, rfl, by decide⟩, by decide⟩

/-- C1, amended: for a device pair list in the init_plist state and any run of
gpu_init_pairlist calls on it, the first call records the na_ci of the host list as
na_c; every later call whose na_ci equals the recorded value succeeds and leaves
na_c unchanged; and, provided the recorded value is not negative, the first later
call whose na_ci differs from it stops the run with gmx_incons. -/
theorem gpu_init_pairlist_na_c_invariant (be : Backend) (iloc : InteractionLocality)
    (nb : NbnxmGpu) (pl : gpu_plist) (h : NbnxnPairlistGpu)
    (hinit : nb.plist.get iloc = init_plist pl) :
    (∃ nb1, gpu_init_pairlist be nb h iloc = .ok nb1 ∧ (nb1.plist.get iloc).na_c = h.na_ci)
      ∧ (∀ later : List NbnxnPairlistGpu, (∀ p ∈ later, p.na_ci = h.na_ci) →
          ∃ nbk, gpu_init_pairlist_seq be iloc nb (h :: later) = .ok nbk
            ∧ (nbk.plist.get iloc).na_c = h.na_ci)
      ∧ (0 ≤ h.na_ci →
          ∀ (later : List NbnxnPairlistGpu) (g : NbnxnPairlistGpu),
            (∀ p ∈ later, p.na_ci = h.na_ci) → g.na_ci ≠ h.na_ci →
            ∃ nbk, gpu_init_pairlist_seq be iloc nb (h :: later) = .ok nbk
              ∧ gpu_init_pairlist be nbk g iloc = .error .gmx_incons
              ∧ gpu_init_pairlist_seq be iloc nb ((h :: later) ++ [g]) = .error .gmx_incons) := by
  have hfirst : ∃ nb1, gpu_init_pairlist be nb h iloc = .ok nb1
      ∧ (nb1.plist.get iloc).na_c = h.na_ci := by
    obtain ⟨nb1, h1, h2, _⟩ := gpu_init_pairlist_ok be nb h iloc
      { nb.plist.get iloc with na_c := h.na_ci }
      (by simp [gpu_init_pairlist_na_c, hinit, init_plist])
    exact ⟨nb1, h1, h2⟩
  have hrun : ∀ later : List NbnxnPairlistGpu, (∀ p ∈ later, p.na_ci = h.na_ci) →
      ∃ nbk, gpu_init_pairlist_seq be iloc nb (h :: later) = .ok nbk
        ∧ (nbk.plist.get iloc).na_c = h.na_ci := by
    intro later hall
    obtain ⟨nb1, h1, h2⟩ := hfirst
    obtain ⟨nbk, hk1, hk2⟩ := gpu_init_pairlist_seq_same be iloc later nb1
      (fun p hp => by rw [h2]; exact hall p hp)
    exact ⟨nbk, by simp [gpu_init_pairlist_seq, h1, hk1], by rw [hk2, h2]⟩
  refine ⟨hfirst, hrun, fun hpos later g hall hg => ?_⟩
  obtain ⟨nbk, hk1, hk2⟩ := hrun later hall
  have hfail : gpu_init_pairlist be nbk g iloc = .error .gmx_incons :=
    gpu_init_pairlist_differs be nbk g iloc (by rw [hk2]; exact hpos) (by rw [hk2]; exact hg)
  refine ⟨nbk, hk1, hfail, ?_⟩
  have hsnoc := gpu_init_pairlist_seq_snoc be iloc (h :: later) g nb nbk hk1
  rw [hsnoc, hfail]

/-- Instance of C1 amended: from the init_plist state, uploads with na_ci 8 and 8
succeed and leave na_c at 8, and a third upload with na_ci 4 stops with
gmx_incons. -/
theorem gpu_init_pairlist_na_c_invariant_witness :
    (∃ nb2, gpu_init_pairlist_seq exampleBackend .Local freshSession
          [hostList 8 3, hostList 8 5] = .ok nb2
        ∧ (nb2.plist.get .Local).na_c = 8)
      ∧ gpu_init_pairlist_seq exampleBackend .Local freshSession
          [hostList 8 3, hostList 8 5, hostList 4 5] = .error .gmx_incons :=
  have key := gpu_init_pairlist_na_c_invariant exampleBackend .Local freshSession zeroPlist
    (hostList 8 3) rfl
  ⟨key.2.1 [hostList 8 5] (by simp [hostList]),
   (key.2.2 (by decide) [hostList 8 5] (hostList 4 5) (by simp [hostList])
      (by decide)).elim fun _ hk => hk.2.2⟩

/-! ## Properties of the work flag and of the coordinate upload -/

/-- The flag written by setupGpuShortRangeWork. -/
theorem setupGpuShortRangeWork_haveWork (nb : NbnxmGpu) (gpuBonded : Option GpuBonded)
    (iloc : InteractionLocality) :
    (setupGpuShortRangeWork nb gpuBonded iloc).haveWork.get iloc
      = (((nb.plist.get iloc).nsci != 0)
          || (match gpuBonded with
              | none => false
              | some b => b.haveInteractions)) := by
  simp only [setupGpuShortRangeWork, PerLocality.get_set_same]

/-- A successful dependency insertion leaves the pair lists alone and only appends
calls that neither transfer data nor reset the event. -/
theorem nbnxnInsertNonlocalGpuDependency_ok (cfg : BuildConfig) (be : Backend)
    (nb nb1 : NbnxmGpu) (iloc : InteractionLocality)
    (h : nbnxnInsertNonlocalGpuDependency cfg be nb iloc = .ok nb1) :
    nb1.plist = nb.plist
      ∧ ∃ added, nb1.calls = nb.calls ++ added
          ∧ ∀ c ∈ added, c.isTransfer = false ∧ c ≠ .resetEvent := by
  unfold nbnxnInsertNonlocalGpuDependency issueClFlushInStream at h
  split at h
  · split at h
    · split at h
      · split at h
        · simp only [Except.ok.injEq] at h
          subst h
          refine ⟨rfl, [.markEvent iloc, .clFlush iloc], by simp, ?_⟩
          intro c hc
          simp only [List.mem_cons, List.mem_singleton, List.not_mem_nil, or_false] at hc
          rcases hc with hc | hc <;> subst hc <;> exact ⟨rfl, by simp⟩
        · simp at h
      · simp only [Except.ok.injEq] at h
        subst h
        refine ⟨rfl, [.markEvent iloc], rfl, ?_⟩
        intro c hc
        simp only [List.mem_singleton] at hc
        subst hc
        exact ⟨rfl, by simp⟩
    · simp only [Except.ok.injEq] at h
      subst h
      refine ⟨rfl, [.enqueueWaitEvent iloc], rfl, ?_⟩
      intro c hc
      simp only [List.mem_singleton] at hc
      subst hc
      exact ⟨rfl, by simp⟩
  · simp only [Except.ok.injEq] at h
    subst h
    exact ⟨rfl, [], by simp, by simp⟩

/-- The calls of the coordinate transfer hold exactly one transfer, that of the
atom range into the xq buffer, and no reset of the event. -/
theorem xqTransferCalls_spec (bDoTime : Bool) (atomLocality : AtomLocality) (r : Range) :
    (xqTransferCalls bDoTime atomLocality r).filter DeviceCall.isTransfer
        = [.copyToDeviceBuffer .xq r.begin r.size
            (gpuAtomToInteractionLocality atomLocality) false]
      ∧ DeviceCall.resetEvent ∉ xqTransferCalls bDoTime atomLocality r := by
  cases bDoTime <;> simp [xqTransferCalls, DeviceCall.isTransfer, List.filter]

/-- C8, evaluated where code and claim part: a list in the init_plist state has
nsci = -1 and holds no entry, yet without any bonded collaborator
setupGpuShortRangeWork sets the work flag of its locality to true, because it
tests nsci against 0 only.  This holds for every session, and in particular for
the non-local list of freshSession, where haveGpuShortRangeWork then returns
true. -/
theorem setupGpuShortRangeWork_unuploaded_list :
    (∀ (nb : NbnxmGpu) (pl : gpu_plist) (iloc : InteractionLocality),
        nb.plist.get iloc = init_plist pl →
        (nb.plist.get iloc).nsci = -1
          ∧ (setupGpuShortRangeWork nb none iloc).haveWork.get iloc = true)
      ∧ freshSession.plist.get .NonLocal = init_plist zeroPlist
      ∧ ¬ (0 < (freshSession.plist.get .NonLocal).nsci)
      ∧ (setupGpuShortRangeWork freshSession none .NonLocal).haveWork.get .NonLocal = true
      ∧ haveGpuShortRangeWork (setupGpuShortRangeWork freshSession none .NonLocal) .NonLocal
          = true := by
  refine ⟨fun nb pl iloc hinit => ?_, rfl, by decide, by decide, by decide⟩
  rw [setupGpuShortRangeWork_haveWork, hinit]
  exact ⟨rfl, rfl⟩

/-- C9, as stated, fails for the local locality: emptyListsSession is what two
uploads of an empty host list produce, its local list is empty and no bonded work
exists, so setupGpuShortRangeWork sets the local flag to false; the
gpu_copy_xq_to_gpu call that follows for the local locality still transfers the
local atom range (atoms 0 to 100) and does not reset the event. -/
theorem gpu_copy_xq_to_gpu_local_always_copies :
    gpu_init_pairlist_seq exampleBackend .NonLocal
        (match gpu_init_pairlist exampleBackend freshSession (hostList 8 0) .Local with
          | .ok nb => nb
          | .error _ => freshSession)
        [hostList 8 0] = .ok emptyListsSession
      ∧ (emptyListsSession.plist.get .Local).nsci = 0
      ∧ (setupGpuShortRangeWork emptyListsSession none .Local).haveWork.get .Local = false
      ∧ ∃ nb1, gpu_copy_xq_to_gpu cudaRelease exampleBackend
            (setupGpuShortRangeWork emptyListsSession none .Local) xyzqAtoms .Local = .ok nb1
          ∧ nb1.calls = emptyListsSession.calls
              ++ [.copyToDeviceBuffer .xq 0 100 .Local false, .markEvent .Local]
          ∧ DeviceCall.resetEvent ∉ nb1.calls :=
  ⟨rfl, by decide, by decide, _, rfl, rfl, by decide⟩

/-- Outside its layout assertion, the local coordinate upload is the transfer of the
local atom range followed by the dependency insertion for the local locality. -/
theorem gpu_copy_xq_to_gpu_local_eq (cfg : BuildConfig) (be : Backend) (nb : NbnxmGpu)
    (nbatom : nbnxn_atomdata_t) (hfmt : cfg.NDEBUG = true ∨ nbatom.XFormat = .nbatXYZQ) :
    gpu_copy_xq_to_gpu cfg be nb nbatom .Local
      = nbnxnInsertNonlocalGpuDependency cfg be
          { nb with
            calls := nb.calls
              ++ xqTransferCalls nb.bDoTime .Local (be.getGpuAtomRange nb.atdat .Local) }
          .Local := by
  have hassert : debugAssert cfg (nbatom.XFormat == .nbatXYZQ) = .ok () := by
    rcases hfmt with hfmt | hfmt <;> simp [debugAssert, hfmt]
  simp only [gpu_copy_xq_to_gpu, gpuAtomToInteractionLocality, reduceCtorEq, false_and,
    if_false, hassert, bind, Except.bind]

/-- With assertions compiled in and host coordinates in another layout, the local
coordinate upload stops at its layout assertion. -/
theorem gpu_copy_xq_to_gpu_local_assert (cfg : BuildConfig) (be : Backend) (nb : NbnxmGpu)
    (nbatom : nbnxn_atomdata_t) (hdbg : cfg.NDEBUG = false)
    (hfmt : nbatom.XFormat ≠ .nbatXYZQ) :
    gpu_copy_xq_to_gpu cfg be nb nbatom .Local = .error .AssertionFailure := by
  have hassert : debugAssert cfg (nbatom.XFormat == .nbatXYZQ) = .error .AssertionFailure := by
    simp [debugAssert, hdbg, hfmt]
  simp only [gpu_copy_xq_to_gpu, gpuAtomToInteractionLocality, reduceCtorEq, false_and,
    if_false, hassert, bind, Except.bind]

/-- The dependency insertion for the local locality returns unless two streams are in
use and the flush of an OpenCL build fails; then it throws InternalError. -/
theorem nbnxnInsertNonlocalGpuDependency_local_outcome (cfg : BuildConfig) (be : Backend)
    (nb : NbnxmGpu) :
    (¬ (nb.bUseTwoStreams = true ∧ cfg.GMX_GPU_OPENCL = true
          ∧ be.clFlushSucceeds .Local = false) →
        ∃ nb1, nbnxnInsertNonlocalGpuDependency cfg be nb .Local = .ok nb1)
      ∧ (nb.bUseTwoStreams = true ∧ cfg.GMX_GPU_OPENCL = true
          ∧ be.clFlushSucceeds .Local = false →
          nbnxnInsertNonlocalGpuDependency cfg be nb .Local = .error .InternalError) := by
  unfold nbnxnInsertNonlocalGpuDependency issueClFlushInStream
  by_cases htwo : nb.bUseTwoStreams = true
  · by_cases hocl : cfg.GMX_GPU_OPENCL = true
    · by_cases hflush : be.clFlushSucceeds .Local = true
      · simp [htwo, hocl, hflush]
      · simp [htwo, hocl, hflush]
    · simp [htwo, hocl]
  · simp [htwo]

/-- C9, amended: if the device pair list of a locality has been uploaded and is
empty (nsci = 0) and no bonded work exists, setupGpuShortRangeWork sets the work
flag of that locality to false, for the local and the non-local locality alike.
For the non-local locality the gpu_copy_xq_to_gpu call that follows issues no
transfer: it only clears haveFreshList of that list and resets the cross-stream
event.  For the local locality the call that follows does not take that early
return.  When the host coordinates are in the XYZQ layout or assertions are
compiled out, it issues the transfer of the local atom range and then performs
the dependency insertion for the local locality; it returns unless the flush of
an OpenCL build with two streams fails, and whenever it returns the pair lists
are unchanged and the calls added hold exactly one transfer and no reset of the
event.  With assertions compiled in and another layout it stops at the layout
assertion. -/
theorem empty_list_no_work (cfg : BuildConfig) (be : Backend) (nb : NbnxmGpu)
    (gpuBonded : Option GpuBonded) (nbatom : nbnxn_atomdata_t) (iloc : InteractionLocality)
    (hempty : (nb.plist.get iloc).nsci = 0)
    (hbonded : ∀ b, gpuBonded = some b → b.haveInteractions = false) :
    (setupGpuShortRangeWork nb gpuBonded iloc).haveWork.get iloc = false
      ∧ (iloc = .NonLocal →
          gpu_copy_xq_to_gpu cfg be (setupGpuShortRangeWork nb gpuBonded iloc) nbatom .NonLocal
            = .ok { setupGpuShortRangeWork nb gpuBonded iloc with
                plist := nb.plist.set .NonLocal
                  { nb.plist.get .NonLocal with haveFreshList := false }
                calls := nb.calls ++ [.resetEvent] })
      ∧ (iloc = .Local → (cfg.NDEBUG = true ∨ nbatom.XFormat = .nbatXYZQ) →
          gpu_copy_xq_to_gpu cfg be (setupGpuShortRangeWork nb gpuBonded iloc) nbatom .Local
              = nbnxnInsertNonlocalGpuDependency cfg be
                  { setupGpuShortRangeWork nb gpuBonded iloc with
                    calls := nb.calls
                      ++ xqTransferCalls nb.bDoTime .Local
                          (be.getGpuAtomRange nb.atdat .Local) }
                  .Local
            ∧ (¬ (nb.bUseTwoStreams = true ∧ cfg.GMX_GPU_OPENCL = true
                  ∧ be.clFlushSucceeds .Local = false) →
                ∃ nb1, gpu_copy_xq_to_gpu cfg be (setupGpuShortRangeWork nb gpuBonded iloc)
                  nbatom .Local = .ok nb1)
            ∧ (nb.bUseTwoStreams = true ∧ cfg.GMX_GPU_OPENCL = true
                  ∧ be.clFlushSucceeds .Local = false →
                gpu_copy_xq_to_gpu cfg be (setupGpuShortRangeWork nb gpuBonded iloc)
                  nbatom .Local = .error .InternalError)
            ∧ ∀ nb1, gpu_copy_xq_to_gpu cfg be (setupGpuShortRangeWork nb gpuBonded iloc)
                  nbatom .Local = .ok nb1 →
                nb1.plist = nb.plist
                  ∧ ∃ issued, nb1.calls = nb.calls ++ issued
                      ∧ issued.filter DeviceCall.isTransfer
                          = [.copyToDeviceBuffer .xq
                              (be.getGpuAtomRange nb.atdat .Local).begin
                              (be.getGpuAtomRange nb.atdat .Local).size .Local false]
                      ∧ DeviceCall.resetEvent ∉ issued)
      ∧ (iloc = .Local → cfg.NDEBUG = false → nbatom.XFormat ≠ .nbatXYZQ →
          gpu_copy_xq_to_gpu cfg be (setupGpuShortRangeWork nb gpuBonded iloc) nbatom .Local
            = .error .AssertionFailure) := by
  have hflag : (setupGpuShortRangeWork nb gpuBonded iloc).haveWork.get iloc = false := by
    rw [setupGpuShortRangeWork_haveWork, hempty]
    cases gpuBonded with
    | none => rfl
    | some b => simp [hbonded b rfl]
  refine ⟨hflag, fun hloc => ?_, fun _ hfmt => ?_, fun _ hdbg hfmt =>
    gpu_copy_xq_to_gpu_local_assert cfg be _ nbatom hdbg hfmt⟩
  · subst hloc
    simp only [gpu_copy_xq_to_gpu, gpuAtomToInteractionLocality,
      haveGpuShortRangeWorkInteraction, hflag, and_self, if_true]
    rfl
  · have hsel := gpu_copy_xq_to_gpu_local_eq cfg be (setupGpuShortRangeWork nb gpuBonded iloc)
      nbatom hfmt
    have hout := nbnxnInsertNonlocalGpuDependency_local_outcome cfg be
      { setupGpuShortRangeWork nb gpuBonded iloc with
        calls := nb.calls
          ++ xqTransferCalls nb.bDoTime .Local (be.getGpuAtomRange nb.atdat .Local) }
    refine ⟨hsel, fun hgood => ?_, fun hbad => ?_, fun nb1 hok => ?_⟩
    · obtain ⟨nb1, h1⟩ := hout.1 hgood
      exact ⟨nb1, hsel.trans h1⟩
    · exact hsel.trans (hout.2 hbad)
    · rw [hsel] at hok
      obtain ⟨hpl, added, hcalls, hadded⟩ :=
        nbnxnInsertNonlocalGpuDependency_ok cfg be _ nb1 _ hok
      obtain ⟨hone, hnoreset⟩ := xqTransferCalls_spec nb.bDoTime .Local
        (be.getGpuAtomRange nb.atdat .Local)
      refine ⟨hpl, xqTransferCalls nb.bDoTime .Local
        (be.getGpuAtomRange nb.atdat .Local) ++ added, ?_, ?_, ?_⟩
      · rw [hcalls, List.append_assoc]
        rfl
      · have hnone : added.filter DeviceCall.isTransfer = [] := by
          rw [List.filter_eq_nil_iff]
          intro c hc
          simp [(hadded c hc).1]
        rw [List.filter_append, hone, hnone, List.append_nil]
        rfl
      · intro hmem
        rcases List.mem_append.mp hmem with hm | hm
        · exact hnoreset hm
        · exact (hadded _ hm).2 rfl

/-- Instance of C9 amended: with empty uploaded lists and no bonded collaborator,
the non-local flag is false and the non-local coordinate upload appends the reset
of the event and nothing else; the local flag is false as well, the local upload
from XYZQ coordinates returns, and from another layout in a debug build it stops
at the assertion. -/
theorem empty_list_no_work_witness :
    (setupGpuShortRangeWork emptyListsSession none .NonLocal).haveWork.get .NonLocal = false
      ∧ (∃ nb1, gpu_copy_xq_to_gpu cudaRelease exampleBackend
            (setupGpuShortRangeWork emptyListsSession none .NonLocal) xyzqAtoms .NonLocal
            = .ok nb1
          ∧ nb1.calls = emptyListsSession.calls ++ [.resetEvent]
          ∧ (nb1.plist.get .NonLocal).haveFreshList = false)
      ∧ (setupGpuShortRangeWork emptyListsSession none .Local).haveWork.get .Local = false
      ∧ (∃ nb1, gpu_copy_xq_to_gpu cudaRelease exampleBackend
            (setupGpuShortRangeWork emptyListsSession none .Local) xyzqAtoms .Local = .ok nb1)
      ∧ gpu_copy_xq_to_gpu cudaDebug exampleBackend
          (setupGpuShortRangeWork emptyListsSession none .Local) otherLayoutAtoms .Local
          = .error .AssertionFailure :=
  have key := empty_list_no_work cudaRelease exampleBackend emptyListsSession none xyzqAtoms
    .NonLocal rfl (fun _ hb => nomatch hb)
  have keyLocal := empty_list_no_work cudaRelease exampleBackend emptyListsSession none
    xyzqAtoms .Local rfl (fun _ hb => nomatch hb)
  have keyDebug := empty_list_no_work cudaDebug exampleBackend emptyListsSession none
    otherLayoutAtoms .Local rfl (fun _ hb => nomatch hb)
  ⟨key.1, ⟨_, key.2.1 rfl, rfl, rfl⟩, keyLocal.1,
   (keyLocal.2.2.1 rfl (Or.inl rfl)).2.1 (by decide),
   keyDebug.2.2.2 rfl rfl (by decide)⟩

/-- C10, as stated, fails: in a build with assertions compiled in, a local
coordinate upload from host coordinates that are not in the XYZQ layout stops at
the GMX_ASSERT on the layout and issues no transfer. -/
theorem gpu_copy_xq_to_gpu_layout_assertion :
    gpu_copy_xq_to_gpu cudaDebug exampleBackend freshSession otherLayoutAtoms .Local
        = .error .AssertionFailure
      ∧ gpuAtomToInteractionLocality .Local ≠ .NonLocal :=
  ⟨rfl, by decide⟩

/-- C10, amended: gpu_copy_xq_to_gpu does one of two things, or stops at its layout
assertion.  If the interaction locality is non-local and its work flag is false,
it issues no transfer, no wait and no dependency insertion: it clears
haveFreshList of that list and resets the event.  In every other case, when the
host coordinates are in the XYZQ layout or assertions are compiled out, it issues
the transfer of the atom range given by getGpuAtomRange (bracketed by the timing
region when timing is on) and then performs nbnxnInsertNonlocalGpuDependency for
that locality; whenever that returns, the pair lists with their haveFreshList are
unchanged and the calls added hold exactly one transfer and no reset of the
event.  In every other case with assertions compiled in and another layout the
assertion fails. -/
theorem gpu_copy_xq_to_gpu_cases (cfg : BuildConfig) (be : Backend) (nb : NbnxmGpu)
    (nbatom : nbnxn_atomdata_t) (atomLocality : AtomLocality) :
    (gpuAtomToInteractionLocality atomLocality = .NonLocal
          ∧ nb.haveWork.get (gpuAtomToInteractionLocality atomLocality) = false →
        gpu_copy_xq_to_gpu cfg be nb nbatom atomLocality
          = .ok { nb with
              plist := nb.plist.set (gpuAtomToInteractionLocality atomLocality)
                { nb.plist.get (gpuAtomToInteractionLocality atomLocality) with
                  haveFreshList := false }
              calls := nb.calls ++ [.resetEvent] })
      ∧ (¬ (gpuAtomToInteractionLocality atomLocality = .NonLocal
            ∧ nb.haveWork.get (gpuAtomToInteractionLocality atomLocality) = false) →
          (cfg.NDEBUG = true ∨ nbatom.XFormat = .nbatXYZQ) →
          gpu_copy_xq_to_gpu cfg be nb nbatom atomLocality
              = nbnxnInsertNonlocalGpuDependency cfg be
                  { nb with
                    calls := nb.calls
                      ++ xqTransferCalls nb.bDoTime atomLocality
                          (be.getGpuAtomRange nb.atdat atomLocality) }
                  (gpuAtomToInteractionLocality atomLocality)
            ∧ ∀ nb1, gpu_copy_xq_to_gpu cfg be nb nbatom atomLocality = .ok nb1 →
                nb1.plist = nb.plist
                  ∧ ∃ issued, nb1.calls = nb.calls ++ issued
                      ∧ issued.filter DeviceCall.isTransfer
                          = [.copyToDeviceBuffer .xq
                              (be.getGpuAtomRange nb.atdat atomLocality).begin
                              (be.getGpuAtomRange nb.atdat atomLocality).size
                              (gpuAtomToInteractionLocality atomLocality) false]
                      ∧ DeviceCall.resetEvent ∉ issued)
      ∧ (¬ (gpuAtomToInteractionLocality atomLocality = .NonLocal
            ∧ nb.haveWork.get (gpuAtomToInteractionLocality atomLocality) = false) →
          cfg.NDEBUG = false → nbatom.XFormat ≠ .nbatXYZQ →
          gpu_copy_xq_to_gpu cfg be nb nbatom atomLocality = .error .AssertionFailure) := by
  refine ⟨fun hskip => ?_, fun hgo hfmt => ?_, fun hgo hdbg hfmt => ?_⟩
  · simp only [gpu_copy_xq_to_gpu, haveGpuShortRangeWorkInteraction]
    rw [if_pos hskip]
  · have hsel : gpu_copy_xq_to_gpu cfg be nb nbatom atomLocality
        = nbnxnInsertNonlocalGpuDependency cfg be
            { nb with
              calls := nb.calls
                ++ xqTransferCalls nb.bDoTime atomLocality
                    (be.getGpuAtomRange nb.atdat atomLocality) }
            (gpuAtomToInteractionLocality atomLocality) := by
      have hassert : debugAssert cfg (nbatom.XFormat == .nbatXYZQ) = .ok () := by
        rcases hfmt with hfmt | hfmt <;> simp [debugAssert, hfmt]
      simp only [gpu_copy_xq_to_gpu, haveGpuShortRangeWorkInteraction, hgo, if_false, hassert,
        bind, Except.bind]
    refine ⟨hsel, fun nb1 hok => ?_⟩
    rw [hsel] at hok
    obtain ⟨hpl, added, hcalls, hadded⟩ :=
      nbnxnInsertNonlocalGpuDependency_ok cfg be _ nb1 _ hok
    obtain ⟨hone, hnoreset⟩ := xqTransferCalls_spec nb.bDoTime atomLocality
      (be.getGpuAtomRange nb.atdat atomLocality)
    refine ⟨hpl, xqTransferCalls nb.bDoTime atomLocality
      (be.getGpuAtomRange nb.atdat atomLocality) ++ added, ?_, ?_, ?_⟩
    · rw [hcalls, List.append_assoc]
    · have hnone : added.filter DeviceCall.isTransfer = [] := by
        rw [List.filter_eq_nil_iff]
        intro c hc
        simp [(hadded c hc).1]
      rw [List.filter_append, hone, hnone, List.append_nil]
    · intro hmem
      rcases List.mem_append.mp hmem with hm | hm
      · exact hnoreset hm
      · exact (hadded _ hm).2 rfl
  · have hassert : debugAssert cfg (nbatom.XFormat == .nbatXYZQ) = .error .AssertionFailure := by
      simp [debugAssert, hdbg, hfmt]
    simp only [gpu_copy_xq_to_gpu, haveGpuShortRangeWorkInteraction, hgo, if_false, hassert,
      bind, Except.bind]

/-- Instance of C10 amended on a session with two streams and no work recorded: the
non-local upload only resets the event, and the local upload issues the transfer
of atoms 0 to 100 and then arms the event on the local stream. -/
theorem gpu_copy_xq_to_gpu_cases_witness :
    (∃ nb1, gpu_copy_xq_to_gpu cudaRelease exampleBackend freshSession xyzqAtoms .NonLocal
          = .ok nb1
        ∧ nb1.calls = [.resetEvent]
        ∧ (nb1.plist.get .NonLocal).haveFreshList = false)
      ∧ (∃ nb1, gpu_copy_xq_to_gpu cudaDebug exampleBackend freshSession xyzqAtoms .Local
            = .ok nb1
          ∧ nb1.calls = [.copyToDeviceBuffer .xq 0 100 .Local false, .markEvent .Local]
          ∧ nb1.plist = freshSession.plist) :=
  have keyNonLocal := (gpu_copy_xq_to_gpu_cases cudaRelease exampleBackend freshSession xyzqAtoms
    .NonLocal).1 ⟨rfl, rfl⟩
  have keyLocal := ((gpu_copy_xq_to_gpu_cases cudaDebug exampleBackend freshSession xyzqAtoms
    .Local).2.1 (by decide) (Or.inr rfl)).1
  ⟨⟨_, keyNonLocal, rfl, rfl⟩, ⟨_, keyLocal, rfl, rfl⟩⟩

/-- The Ewald selector stops with gmx_incons exactly when both force overrides are
set. -/
theorem pick_ewald_conflict_iff (cfg : BuildConfig) (env : Environment)
    (ic : interaction_const_t) (deviceInfo : DeviceInformation) :
    nbnxn_gpu_pick_ewald_kernel_type cfg env ic deviceInfo = .error .gmx_incons
      ↔ (env.GMX_GPU_NB_ANA_EWALD = true ∧ env.GMX_GPU_NB_TAB_EWALD = true) := by
  obtain ⟨ana, tab, twin⟩ := env
  cases ana <;> cases tab <;> simp [nbnxn_gpu_pick_ewald_kernel_type] <;> split <;> simp

/-- Without the override conflict the Ewald selector returns a variant. -/
theorem pick_ewald_returns (cfg : BuildConfig) (env : Environment)
    (ic : interaction_const_t) (deviceInfo : DeviceInformation)
    (hno : ¬ (env.GMX_GPU_NB_ANA_EWALD = true ∧ env.GMX_GPU_NB_TAB_EWALD = true)) :
    ∃ v, nbnxn_gpu_pick_ewald_kernel_type cfg env ic deviceInfo = .ok v := by
  obtain ⟨ana, tab, twin⟩ := env
  cases ana <;> cases tab <;> simp_all [nbnxn_gpu_pick_ewald_kernel_type] <;> split <;> simp

/-! ## Properties of the fresh flag -/

/-- The upload leaves the pair list of the other locality alone. -/
theorem gpu_init_pairlist_other_list (be : Backend) (nb nb1 : NbnxmGpu)
    (h_plist : NbnxnPairlistGpu) (iloc jloc : InteractionLocality) (hj : jloc ≠ iloc)
    (h : gpu_init_pairlist be nb h_plist iloc = .ok nb1) :
    nb1.plist.get jloc = nb.plist.get jloc := by
  cases hc : gpu_init_pairlist_na_c (nb.plist.get iloc) h_plist with
  | error e => rw [gpu_init_pairlist_error be nb h_plist iloc e hc] at h; simp at h
  | ok d =>
    simp only [gpu_init_pairlist, hc, bind, Except.bind, pure, Except.pure,
      Except.ok.injEq] at h
    subst h
    exact PerLocality.get_set_other _ _ _ _ hj

/-- The traced dependency insertion only appends calls: every other field of the
session is as before. -/
theorem nbnxnInsertNonlocalGpuDependency_trace_calls (cfg : BuildConfig) (be : Backend)
    (nb : NbnxmGpu) (iloc : InteractionLocality) :
    (nbnxnInsertNonlocalGpuDependency_trace cfg be nb iloc).1
      = { nb with
          calls := (nbnxnInsertNonlocalGpuDependency_trace cfg be nb iloc).1.calls } := by
  unfold nbnxnInsertNonlocalGpuDependency_trace issueClFlushInStream_trace
  split
  · split
    · split <;> rfl
    · rfl
  · rfl

/-- The dependency insertion is its traced form with the session dropped at a
throw. -/
theorem nbnxnInsertNonlocalGpuDependency_eq_trace (cfg : BuildConfig) (be : Backend)
    (nb : NbnxmGpu) (iloc : InteractionLocality) :
    nbnxnInsertNonlocalGpuDependency cfg be nb iloc
      = match nbnxnInsertNonlocalGpuDependency_trace cfg be nb iloc with
        | (nb1, none) => .ok nb1
        | (_, some e) => .error e := by
  unfold nbnxnInsertNonlocalGpuDependency nbnxnInsertNonlocalGpuDependency_trace
    issueClFlushInStream issueClFlushInStream_trace
  split
  · split
    · split
      · split <;> rfl
      · rfl
    · rfl
  · rfl

/-- A successful parameter update of a GPU-enabled context replaces the parameter
block of the session and nothing else. -/
theorem gpu_pme_loadbal_update_param_ok (cfg : BuildConfig) (env : Environment)
    (nbv : nonbonded_verlet_t) (nb : NbnxmGpu) (ic : interaction_const_t)
    (res : Option nonbonded_verlet_t) (hnb : nbv.gpu_nbv = some nb)
    (h : gpu_pme_loadbal_update_param cfg env (some nbv) ic = .ok res) :
    ∃ nbp, res = some { nbv with gpu_nbv := some { nb with nbparam := nbp } } := by
  unfold gpu_pme_loadbal_update_param at h
  simp only [hnb] at h
  split at h
  · simp only [Except.ok.injEq] at h
    subst h
    exact ⟨nb.nbparam, by rw [← hnb]⟩
  · cases hpick : nbnxn_gpu_pick_ewald_kernel_type cfg env ic nb.deviceInfo with
    | error e => simp [hpick, bind, Except.bind] at h
    | ok v =>
      cases htab : ic.coulombEwaldTables with
      | none => simp [hpick, htab, releaseAssert, bind, Except.bind] at h
      | some tables =>
        simp only [hpick, htab, releaseAssert, bind, Except.bind, pure, Except.pure,
          Option.isSome_some, if_true, Except.ok.injEq] at h
        subst h
        exact ⟨_, rfl⟩

/-- C11, as stated, fails: the non-local list of emptyListsSession is fresh after
its upload; with no work for the non-local locality, the non-local coordinate
upload clears haveFreshList of that list, and no prune step has run. -/
theorem gpu_copy_xq_to_gpu_clears_fresh_flag :
    (emptyListsSession.plist.get .NonLocal).haveFreshList = true
      ∧ ((setupGpuShortRangeWork emptyListsSession none .NonLocal).plist.get
          .NonLocal).haveFreshList = true
      ∧ ∃ nb1, gpu_copy_xq_to_gpu cudaRelease exampleBackend
            (setupGpuShortRangeWork emptyListsSession none .NonLocal) xyzqAtoms .NonLocal
            = .ok nb1
          ∧ (nb1.plist.get .NonLocal).haveFreshList = false :=
  ⟨by decide, by decide, _, rfl, by decide⟩

/-- C11, amended: an upload that passes the atoms-per-cluster check ends with
haveFreshList of its list set to true and leaves the other list alone (an upload
that does not pass stops with gmx_incons).  The operations setupGpuShortRangeWork,
nbnxnInsertNonlocalGpuDependency (also when it throws), gpu_reset_timings and
gpu_pme_loadbal_update_param leave both pair lists, and so both flags, unchanged.
The coordinate upload gpu_copy_xq_to_gpu never touches the local list; it clears
haveFreshList of the non-local list when called for the non-local locality without
short-range work, and leaves that list unchanged otherwise.  So no operation other
than the upload sets a flag, and the only one that clears a flag is the non-local
coordinate upload without work. -/
theorem haveFreshList_transitions (cfg : BuildConfig) (env : Environment) (be : Backend)
    (nb : NbnxmGpu) :
    (∀ (h_plist : NbnxnPairlistGpu) (iloc : InteractionLocality),
        (0 ≤ (nb.plist.get iloc).na_c ∧ (nb.plist.get iloc).na_c ≠ h_plist.na_ci →
            gpu_init_pairlist be nb h_plist iloc = .error .gmx_incons)
          ∧ (¬ (0 ≤ (nb.plist.get iloc).na_c ∧ (nb.plist.get iloc).na_c ≠ h_plist.na_ci) →
              ∃ nb1, gpu_init_pairlist be nb h_plist iloc = .ok nb1
                ∧ (nb1.plist.get iloc).haveFreshList = true
                ∧ ∀ jloc, jloc ≠ iloc → nb1.plist.get jloc = nb.plist.get jloc))
      ∧ (∀ (gpuBonded : Option GpuBonded) (iloc : InteractionLocality),
          (setupGpuShortRangeWork nb gpuBonded iloc).plist = nb.plist)
      ∧ (∀ iloc : InteractionLocality,
          (nbnxnInsertNonlocalGpuDependency_trace cfg be nb iloc).1.plist = nb.plist)
      ∧ (∀ nbv : nonbonded_verlet_t, nbv.gpu_nbv = some nb →
          ∃ nb1, (gpu_reset_timings nbv).gpu_nbv = some nb1 ∧ nb1.plist = nb.plist)
      ∧ (∀ (nbv : nonbonded_verlet_t) (ic : interaction_const_t)
            (res : Option nonbonded_verlet_t),
          nbv.gpu_nbv = some nb →
          gpu_pme_loadbal_update_param cfg env (some nbv) ic = .ok res →
          ∃ nbv1 nb1, res = some nbv1 ∧ nbv1.gpu_nbv = some nb1 ∧ nb1.plist = nb.plist)
      ∧ (∀ (nbatom : nbnxn_atomdata_t) (atomLocality : AtomLocality) (nb1 : NbnxmGpu),
          gpu_copy_xq_to_gpu cfg be nb nbatom atomLocality = .ok nb1 →
          nb1.plist.get .Local = nb.plist.get .Local
            ∧ (atomLocality = .NonLocal ∧ nb.haveWork.get .NonLocal = false →
                nb1.plist.get .NonLocal
                  = { nb.plist.get .NonLocal with haveFreshList := false })
            ∧ (¬ (atomLocality = .NonLocal ∧ nb.haveWork.get .NonLocal = false) →
                nb1.plist.get .NonLocal = nb.plist.get .NonLocal)) := by
  refine ⟨fun h_plist iloc => ⟨fun hbad => ?_, fun hgood => ?_⟩, fun _ _ => rfl,
    fun iloc => ?_, fun nbv hnb => ?_, fun nbv ic res hnb hok => ?_,
    fun nbatom atomLocality nb1 hok => ?_⟩
  · exact gpu_init_pairlist_differs be nb h_plist iloc hbad.1 (Ne.symm hbad.2)
  · have hcheck : ∃ d, gpu_init_pairlist_na_c (nb.plist.get iloc) h_plist = .ok d := by
      unfold gpu_init_pairlist_na_c
      by_cases hneg : (nb.plist.get iloc).na_c < 0
      · exact ⟨_, if_pos hneg⟩
      · have heq : (nb.plist.get iloc).na_c = h_plist.na_ci := by
          by_contra hne
          exact hgood ⟨not_lt.mp hneg, hne⟩
        exact ⟨nb.plist.get iloc, by rw [if_neg hneg, if_neg (not_not.mpr heq)]⟩
    obtain ⟨d, hd⟩ := hcheck
    obtain ⟨nb1, h1, _, _, hfresh⟩ := gpu_init_pairlist_ok be nb h_plist iloc d hd
    exact ⟨nb1, h1, hfresh, fun jloc hj =>
      gpu_init_pairlist_other_list be nb nb1 h_plist iloc jloc hj h1⟩
  · rw [nbnxnInsertNonlocalGpuDependency_trace_calls]
  · unfold gpu_reset_timings
    rw [hnb]
    by_cases ht : nb.bDoTime = true
    · exact ⟨{ nb with timings := init_timings nb.timings },
        by simp only []; rw [if_pos ht], rfl⟩
    · exact ⟨nb, by simp only []; rw [if_neg ht, hnb], rfl⟩
  · obtain ⟨nbp, hres⟩ := gpu_pme_loadbal_update_param_ok cfg env nbv nb ic res hnb hok
    exact ⟨_, _, hres, rfl, rfl⟩
  · unfold gpu_copy_xq_to_gpu at hok
    cases atomLocality with
    | Local =>
      simp only [gpuAtomToInteractionLocality, haveGpuShortRangeWorkInteraction,
        reduceCtorEq, false_and, if_false] at hok
      cases hassert : debugAssert cfg (nbatom.XFormat == .nbatXYZQ) with
      | error e => simp [hassert, bind, Except.bind] at hok
      | ok u =>
        simp only [hassert, bind, Except.bind] at hok
        obtain ⟨hpl, _⟩ := nbnxnInsertNonlocalGpuDependency_ok cfg be _ nb1 _ hok
        simp only at hpl
        refine ⟨by rw [hpl], fun hskip => ?_, fun _ => by rw [hpl]⟩
        exact absurd hskip.1 (by decide)
    | NonLocal =>
      by_cases hwork : nb.haveWork.get .NonLocal = false
      · simp only [gpuAtomToInteractionLocality, haveGpuShortRangeWorkInteraction, hwork,
          and_self, if_true, Except.ok.injEq] at hok
        subst hok
        exact ⟨rfl, fun _ => rfl, fun hgo => absurd ⟨rfl, hwork⟩ hgo⟩
      · simp only [gpuAtomToInteractionLocality, haveGpuShortRangeWorkInteraction, hwork,
          and_false, if_false] at hok
        cases hassert : debugAssert cfg (nbatom.XFormat == .nbatXYZQ) with
        | error e => simp [hassert, bind, Except.bind] at hok
        | ok u =>
          simp only [hassert, bind, Except.bind] at hok
          obtain ⟨hpl, _⟩ := nbnxnInsertNonlocalGpuDependency_ok cfg be _ nb1 _ hok
          simp only at hpl
          exact ⟨by rw [hpl], fun hskip => absurd hskip.2 hwork, fun _ => by rw [hpl]⟩

/-- Instance of C11 amended: the upload of a host list into the local list of
freshSession sets its flag, and the local coordinate upload that follows keeps
both lists as they are. -/
theorem haveFreshList_transitions_witness :
    (∃ nb1, gpu_init_pairlist exampleBackend freshSession (hostList 8 3) .Local = .ok nb1
        ∧ (nb1.plist.get .Local).haveFreshList = true)
      ∧ (nbnxnInsertNonlocalGpuDependency_trace cudaRelease exampleBackend freshSession
          .NonLocal).1.plist = freshSession.plist :=
  have key := haveFreshList_transitions cudaRelease noOverrides exampleBackend freshSession
  ⟨((key.1 (hostList 8 3) .Local).2 (by decide)).imp fun _ h => ⟨h.1, h.2.1⟩,
   key.2.2.1 .NonLocal⟩

/-! ## Properties of the parameter update -/

/-- The table refresh writes the scale and the table of the supplied tables and
nothing else, whether or not a table existed before. -/
theorem init_ewald_coulomb_force_table_eq (tables : EwaldCorrectionTables) (nbp : NBParamGpu) :
    init_ewald_coulomb_force_table tables nbp
      = { nbp with coulomb_tab_scale := tables.scale, coulomb_tab := some tables.tableF } := by
  unfold init_ewald_coulomb_force_table
  split <;> rfl

/-- C12, as stated, fails: for the plain cut-off electrostatics model
nbnxmGpuPickElectrostaticsKernelType returns Cut, whatever the two family macros
are, but gpu_pme_loadbal_update_param calls the Ewald selector directly and leaves
EwaldAna in the parameter block. -/
theorem gpu_pme_loadbal_update_param_cutoff_model :
    cutoffConstantsWithTables.eeltype = .Cut
      ∧ (∀ EEL_RF EEL_PME : CoulombInteractionType → Bool,
          nbnxmGpuPickElectrostaticsKernelType EEL_RF EEL_PME cudaRelease noOverrides
            cutoffConstantsWithTables emptyListsSession.deviceInfo = .ok .Cut)
      ∧ ∃ nbv1 nb1, gpu_pme_loadbal_update_param cudaRelease noOverrides (some gpuContext)
            cutoffConstantsWithTables = .ok (some nbv1)
          ∧ nbv1.gpu_nbv = some nb1
          ∧ nb1.nbparam.elecType = .EwaldAna :=
  ⟨rfl, fun _ _ => rfl, _, _, rfl, rfl, rfl⟩

/-- C12, amended: gpu_pme_loadbal_update_param changes nothing when the context is
null or does not use the GPU.  For a GPU-enabled context it stops with gmx_incons
when the two force overrides conflict, and otherwise with a failed
GMX_RELEASE_ASSERT when the correction tables are absent.  When the tables are
present and the overrides do not conflict it returns, and the parameter block then
holds the cutoff fields written by set_cutoff_parameters, as elecType the variant
that nbnxn_gpu_pick_ewald_kernel_type returns for these interaction constants and
this device, whatever the electrostatics model is, and the scale and table of the
supplied tables.  That variant is the one nbnxmGpuPickElectrostaticsKernelType
returns when the model is a particle-mesh variant or plain Ewald outside the
cut-off and reaction-field cases. -/
theorem gpu_pme_loadbal_update_param_spec (cfg : BuildConfig) (env : Environment)
    (nbv : nonbonded_verlet_t) (ic : interaction_const_t) :
    gpu_pme_loadbal_update_param cfg env none ic = .ok none
      ∧ (nbv.useGpu = false →
          gpu_pme_loadbal_update_param cfg env (some nbv) ic = .ok (some nbv))
      ∧ ∀ nb : NbnxmGpu, nbv.useGpu = true → nbv.gpu_nbv = some nb →
          ((env.GMX_GPU_NB_ANA_EWALD = true ∧ env.GMX_GPU_NB_TAB_EWALD = true) →
              gpu_pme_loadbal_update_param cfg env (some nbv) ic = .error .gmx_incons)
            ∧ (¬ (env.GMX_GPU_NB_ANA_EWALD = true ∧ env.GMX_GPU_NB_TAB_EWALD = true) →
                ic.coulombEwaldTables = none →
                gpu_pme_loadbal_update_param cfg env (some nbv) ic
                  = .error .AssertionFailure)
            ∧ (¬ (env.GMX_GPU_NB_ANA_EWALD = true ∧ env.GMX_GPU_NB_TAB_EWALD = true) →
                ∀ tables, ic.coulombEwaldTables = some tables →
                ∃ v, nbnxn_gpu_pick_ewald_kernel_type cfg env ic nb.deviceInfo = .ok v
                  ∧ gpu_pme_loadbal_update_param cfg env (some nbv) ic
                    = .ok (some { nbv with
                        gpu_nbv := some { nb with
                          nbparam :=
                            { set_cutoff_parameters nb.nbparam ic nbv.pairlistParams with
                              elecType := v
                              coulomb_tab_scale := tables.scale
                              coulomb_tab := some tables.tableF } } })
                  ∧ ∀ EEL_RF EEL_PME : CoulombInteractionType → Bool,
                      ic.eeltype ≠ .Cut → EEL_RF ic.eeltype = false →
                      (EEL_PME ic.eeltype = true ∨ ic.eeltype = .Ewald) →
                      nbnxmGpuPickElectrostaticsKernelType EEL_RF EEL_PME cfg env ic
                        nb.deviceInfo = .ok v) := by
  refine ⟨rfl, fun hoff => ?_, fun nb hgpu hnb => ⟨fun hconf => ?_, fun hno htab => ?_,
    fun hno tables htab => ?_⟩⟩
  · simp [gpu_pme_loadbal_update_param, hoff]
  · have hpick := (pick_ewald_conflict_iff cfg env ic nb.deviceInfo).mpr hconf
    simp [gpu_pme_loadbal_update_param, hgpu, hnb, hpick, bind, Except.bind]
  · obtain ⟨v, hv⟩ := pick_ewald_returns cfg env ic nb.deviceInfo hno
    simp [gpu_pme_loadbal_update_param, hgpu, hnb, hv, htab, releaseAssert, bind, Except.bind]
  · obtain ⟨v, hv⟩ := pick_ewald_returns cfg env ic nb.deviceInfo hno
    refine ⟨v, hv, ?_, fun EEL_RF EEL_PME h1 h2 h3 => ?_⟩
    · simp only [gpu_pme_loadbal_update_param, hgpu, hnb, hv, htab, releaseAssert, bind,
        Except.bind, pure, Except.pure, Option.isSome_some, if_true, Bool.not_true,
        Bool.false_eq_true, if_false, init_ewald_coulomb_force_table_eq]
    · rw [← hv]
      unfold nbnxmGpuPickElectrostaticsKernelType
      rw [if_neg h1]
      simp only [h2]
      rcases h3 with h3 | h3 <;> simp [h3]

/-- Instance of C12 amended: for plain Ewald electrostatics with tables, the update
of gpuContext returns and leaves EwaldAna, the variant of the electrostatics
selector, together with the scale 500 and the three table values. -/
theorem gpu_pme_loadbal_update_param_spec_witness :
    (∃ nbv1 nb1, gpu_pme_loadbal_update_param cudaRelease noOverrides (some gpuContext)
          ewaldConstantsWithTables = .ok (some nbv1)
        ∧ nbv1.gpu_nbv = some nb1
        ∧ nb1.nbparam.elecType = .EwaldAna
        ∧ nb1.nbparam.coulomb_tab = some [1, 2, 3]
        ∧ nb1.nbparam.coulomb_tab_scale = 500
        ∧ nb1.nbparam.rlistOuter_sq = 4)
      ∧ nbnxmGpuPickElectrostaticsKernelType (fun _ => false) (fun _ => false) cudaRelease
          noOverrides ewaldConstantsWithTables emptyListsSession.deviceInfo = .ok .EwaldAna :=
  have key := (gpu_pme_loadbal_update_param_spec cudaRelease noOverrides gpuContext
    ewaldConstantsWithTables).2.2 emptyListsSession rfl rfl
  match key.2.2 (by decide) smallTables rfl with
  | ⟨v, hv, hres, hsel⟩ =>
    have hv1 : v = .EwaldAna := by
      have h0 : nbnxn_gpu_pick_ewald_kernel_type cudaRelease noOverrides
          ewaldConstantsWithTables emptyListsSession.deviceInfo = .ok .EwaldAna := by decide
      rw [h0] at hv
      exact (Except.ok.inj hv).symm
    ⟨⟨_, _, hres, rfl, by rw [hv1], rfl, rfl, by norm_num [set_cutoff_parameters, gpuContext]⟩,
     by rw [← hv1]; exact hsel _ _ (by decide) rfl (Or.inr rfl)⟩

/-! ## Properties of the dependency insertion -/

/-- The calls one traced dependency insertion appends: for the local locality the
arming of the event on the local stream, followed by the flush in an OpenCL
build; for the non-local locality one wait on the non-local stream; nothing when
two streams are not in use. -/
theorem nbnxnInsertNonlocalGpuDependency_trace_state (cfg : BuildConfig) (be : Backend)
    (nb : NbnxmGpu) (iloc : InteractionLocality) :
    (nbnxnInsertNonlocalGpuDependency_trace cfg be nb iloc).1
      = { nb with
          calls := nb.calls ++
            (if nb.bUseTwoStreams then
              match iloc with
              | .Local =>
                .markEvent .Local :: (if cfg.GMX_GPU_OPENCL then [.clFlush .Local] else [])
              | .NonLocal => [.enqueueWaitEvent .NonLocal]
            else []) } := by
  unfold nbnxnInsertNonlocalGpuDependency_trace issueClFlushInStream_trace
  by_cases htwo : nb.bUseTwoStreams = true
  · rw [if_pos htwo, if_pos htwo]
    cases iloc
    · by_cases hocl : cfg.GMX_GPU_OPENCL = true
      · simp [hocl]
      · simp [hocl]
    · simp
  · rw [if_neg htwo, if_neg htwo]
    simp

/-- In a run of traced dependency insertions every wait appended is on the
non-local stream and every arming appended is on the local stream. -/
theorem nbnxnInsertNonlocalGpuDependency_seq_streams (cfg : BuildConfig) (be : Backend)
    (ilocs : List InteractionLocality) :
    ∀ nb : NbnxmGpu, ∃ added,
      (nbnxnInsertNonlocalGpuDependency_seq cfg be nb ilocs).1
          = { nb with calls := nb.calls ++ added }
        ∧ ∀ c ∈ added, (∀ stream, c = .enqueueWaitEvent stream → stream = .NonLocal)
            ∧ (∀ stream, c = .markEvent stream → stream = .Local) := by
  induction ilocs with
  | nil => intro nb; exact ⟨[], by simp [nbnxnInsertNonlocalGpuDependency_seq], by simp⟩
  | cons iloc rest ih =>
    intro nb
    have hstate := nbnxnInsertNonlocalGpuDependency_trace_state cfg be nb iloc
    generalize hadd : (if nb.bUseTwoStreams then
        match iloc with
        | .Local =>
          DeviceCall.markEvent .Local :: (if cfg.GMX_GPU_OPENCL then [.clFlush .Local] else [])
        | .NonLocal => [.enqueueWaitEvent .NonLocal]
      else []) = first at hstate
    have hfirst : ∀ c ∈ first, (∀ stream, c = .enqueueWaitEvent stream → stream = .NonLocal)
        ∧ (∀ stream, c = .markEvent stream → stream = .Local) := by
      intro c hc
      subst hadd
      by_cases htwo : nb.bUseTwoStreams = true
      · rw [if_pos htwo] at hc
        cases iloc
        · by_cases hocl : cfg.GMX_GPU_OPENCL = true
          · simp only [hocl, if_true, List.mem_cons, List.mem_singleton, List.not_mem_nil,
              or_false] at hc
            rcases hc with hc | hc <;> subst hc <;> simp
          · simp only [hocl, if_false, List.mem_singleton, Bool.false_eq_true] at hc
            subst hc
            simp
        · simp only [List.mem_singleton] at hc
          subst hc
          simp
      · rw [if_neg htwo] at hc
        simp at hc
    unfold nbnxnInsertNonlocalGpuDependency_seq
    cases htr : nbnxnInsertNonlocalGpuDependency_trace cfg be nb iloc with
    | mk nb1 err =>
      rw [htr] at hstate
      simp only at hstate
      cases err with
      | some e => exact ⟨first, hstate, hfirst⟩
      | none =>
        obtain ⟨added, h1, h2⟩ := ih nb1
        refine ⟨first ++ added, ?_, ?_⟩
        · subst hstate
          rw [h1]
          simp only [List.append_assoc]
        · intro c hc
          rcases List.mem_append.mp hc with hc | hc
          · exact hfirst c hc
          · exact h2 c hc

/-- C13: nbnxnInsertNonlocalGpuDependency changes nothing when two streams are not
in use.  When two streams are in use, a call for the local locality arms the
event on the local stream (and flushes that stream in an OpenCL build) and
enqueues no wait; it throws InternalError, after the arming, exactly when the
flush of an OpenCL build fails.  A call for the non-local locality enqueues
exactly one wait on the non-local stream, does not arm the event and does not
throw.  So in any run of calls every wait is enqueued on the non-local stream and
every arming is on the local stream. -/
theorem nbnxnInsertNonlocalGpuDependency_spec (cfg : BuildConfig) (be : Backend)
    (nb : NbnxmGpu) :
    (nb.bUseTwoStreams = false → ∀ iloc,
        nbnxnInsertNonlocalGpuDependency_trace cfg be nb iloc = (nb, none)
          ∧ nbnxnInsertNonlocalGpuDependency cfg be nb iloc = .ok nb)
      ∧ (nb.bUseTwoStreams = true →
          (nbnxnInsertNonlocalGpuDependency_trace cfg be nb .Local).1
              = { nb with
                  calls := nb.calls ++ .markEvent .Local ::
                    (if cfg.GMX_GPU_OPENCL then [.clFlush .Local] else []) }
            ∧ ((nbnxnInsertNonlocalGpuDependency_trace cfg be nb .Local).2
                = if cfg.GMX_GPU_OPENCL = true ∧ be.clFlushSucceeds .Local = false
                  then some .InternalError else none)
            ∧ nbnxnInsertNonlocalGpuDependency_trace cfg be nb .NonLocal
                = ({ nb with calls := nb.calls ++ [.enqueueWaitEvent .NonLocal] }, none)
            ∧ nbnxnInsertNonlocalGpuDependency cfg be nb .NonLocal
                = .ok { nb with calls := nb.calls ++ [.enqueueWaitEvent .NonLocal] })
      ∧ (∀ iloc, nbnxnInsertNonlocalGpuDependency cfg be nb iloc
          = match nbnxnInsertNonlocalGpuDependency_trace cfg be nb iloc with
            | (nb1, none) => .ok nb1
            | (_, some e) => .error e)
      ∧ (∀ ilocs : List InteractionLocality, ∃ added,
          (nbnxnInsertNonlocalGpuDependency_seq cfg be nb ilocs).1
              = { nb with calls := nb.calls ++ added }
            ∧ ∀ c ∈ added, (∀ stream, c = .enqueueWaitEvent stream → stream = .NonLocal)
                ∧ (∀ stream, c = .markEvent stream → stream = .Local)) := by
  refine ⟨fun hone iloc => ?_, fun htwo => ⟨?_, ?_, ?_, ?_⟩,
    fun iloc => nbnxnInsertNonlocalGpuDependency_eq_trace cfg be nb iloc,
    fun ilocs => nbnxnInsertNonlocalGpuDependency_seq_streams cfg be ilocs nb⟩
  · simp [nbnxnInsertNonlocalGpuDependency_trace, nbnxnInsertNonlocalGpuDependency, hone]
  · rw [nbnxnInsertNonlocalGpuDependency_trace_state, htwo]
    rfl
  · unfold nbnxnInsertNonlocalGpuDependency_trace issueClFlushInStream_trace
    rw [htwo]
    cases cfg.GMX_GPU_OPENCL <;> cases be.clFlushSucceeds .Local <;> simp
  · simp [nbnxnInsertNonlocalGpuDependency_trace, htwo]
  · simp [nbnxnInsertNonlocalGpuDependency, htwo]

/-- Instance of C13 on freshSession, which uses two streams: a local call arms the
event on the local stream, a non-local call enqueues one wait on the non-local
stream, and the run local, non-local issues exactly these two calls. -/
theorem nbnxnInsertNonlocalGpuDependency_spec_witness :
    (nbnxnInsertNonlocalGpuDependency_trace cudaRelease exampleBackend freshSession .Local).1.calls
        = [.markEvent .Local]
      ∧ (nbnxnInsertNonlocalGpuDependency_trace cudaRelease exampleBackend freshSession
          .NonLocal).1.calls = [.enqueueWaitEvent .NonLocal]
      ∧ (nbnxnInsertNonlocalGpuDependency_seq cudaRelease exampleBackend freshSession
          [.Local, .NonLocal]).1.calls = [.markEvent .Local, .enqueueWaitEvent .NonLocal] :=
  have key := (nbnxnInsertNonlocalGpuDependency_spec cudaRelease exampleBackend freshSession).2.1
    rfl
  ⟨by rw [key.1]; rfl, by rw [key.2.2.1]; rfl, by decide⟩

end Nbnxm
